import Mathlib

/-!
Shallow embedding of the character locomotion controller
(`src/objects/Player.ts`, final revision) of the 3d-ultimate-chicken-horse
repository, together with proofs of its specified behaviour.

Numbers are modelled as exact rationals.  The physics engine and the
JavaScript `Math` library are external collaborators; they enter the
embedding as oracle data (`Env`) and as abstract function parameters
(`MathOps`).  Every controller decision (thresholds, branch structure,
assignment order) is translated literally from the source.
-/

namespace UCH

/-- A 3-component vector (CANNON.Vec3), with exact rational entries. -/
structure Vec3 where
  x : ℚ
  y : ℚ
  z : ℚ
deriving DecidableEq

def Vec3.neg (v : Vec3) : Vec3 := ⟨-v.x, -v.y, -v.z⟩

def Vec3.sub (a b : Vec3) : Vec3 := ⟨a.x - b.x, a.y - b.y, a.z - b.z⟩

def Vec3.zero : Vec3 := ⟨0, 0, 0⟩

/-- Abstract versions of the JavaScript `Math` functions the controller
calls.  The controller never relies on their analytic properties except
through the values they return, so they are oracle parameters. -/
structure MathOps where
  sinQ : ℚ → ℚ
  cosQ : ℚ → ℚ
  atan2Q : ℚ → ℚ → ℚ
  sqrtQ : ℚ → ℚ
  acosQ : ℚ → ℚ
  piQ : ℚ

/-- Per-body metadata (`userData`) attached to physics bodies. -/
structure UserData where
  tag : Option String
  owner : Option String
  collected : Bool
  slideDirection : Option (ℚ × ℚ)
  tiltAngle : Option ℚ
deriving DecidableEq

/-- Which side of a contact equation the player's body occupies
(`c.bi === this.body` / `c.bj === this.body` / neither). -/
inductive ContactSide
  | biPlayer
  | bjPlayer
  | sep
deriving DecidableEq

/-- One entry of `world.contacts`: the contact normal `ni` (pointing from
`bi` to `bj`), the contact offsets `ri`/`rj`, the other body's position
and its `userData`. -/
structure Contact where
  side : ContactSide
  ni : Vec3
  ri : Vec3
  rj : Vec3
  otherPos : Vec3
  otherUserData : Option UserData
deriving DecidableEq

/-- Reply of `world.raycastClosest` for the downward ground ray. -/
structure RayHit where
  bodyPresent : Bool
  bodyIsPlayer : Bool
  hitPointWorld : Option Vec3
  hitNormalWorld : Option Vec3
  userData : Option UserData
deriving DecidableEq

/-- The physics-world oracle for one tick: whether `body.world` is set,
the current contact list, the ground raycast reply, and the wall raycast
reply used by `getWallContact`. -/
structure Env where
  worldExists : Bool
  contacts : List Contact
  groundRay : Option RayHit
  wallRay : Option Vec3
deriving DecidableEq

/-- Discrete animation states used by the controller. -/
inductive AnimState
  | idle
  | run
  | jump
  | fall
  | dead
deriving DecidableEq

/-- The controller-owned state: the rigid body's mirrored fields plus all
private flags and timers of the `Player` class. -/
structure PlayerState where
  position : Vec3
  velocity : Vec3
  angularVelocity : Vec3
  quaternion : ℚ × ℚ × ℚ × ℚ
  force : Vec3
  isJumping : Bool
  jumpTime : ℚ
  coyoteTimer : ℚ
  wasGrounded : Bool
  lastPosition : Vec3
  stuckTimer : ℚ
  isDead : Bool
  hasWon : Bool
  score : ℤ
  lastHitBy : Option String
  animState : AnimState
  isAgainstWall : Bool
  wallContactNormal : Vec3
  localBottomY : ℚ
  localTopY : ℚ
deriving DecidableEq

/-- Movement/jump input for one tick. -/
structure InputState where
  x : ℚ
  y : ℚ
  jump : Bool
  sprint : Bool
deriving DecidableEq

/-- Result record of `Player.getGroundInfo`. -/
structure GroundInfo where
  grounded : Bool
  isIce : Bool
  isIceSlope : Bool
  canJump : Bool
  slopeAngle : ℚ
  slideDirection : Option (ℚ × ℚ)
  tiltAngle : Option ℚ
deriving DecidableEq

def MAX_JUMP_TIME : ℚ := 3/10

def MIN_JUMP_FORCE : ℚ := 4

def JUMP_HOLD_FORCE : ℚ := 10

def MOVE_SPEED : ℚ := 5

def SPRINT_MULTIPLIER : ℚ := 7/5

def COYOTE_TIME : ℚ := 3/25

def MAX_JUMPABLE_SLOPE_ANGLE : ℚ := 87/100

/-- `this.body.position.y + this.localBottomY` (`getFootWorldY`). -/
def footWorldY (s : PlayerState) : ℚ := s.position.y + s.localBottomY

/-- The not-grounded default result, with the slope angle the code passes
along on each early return. -/
def notGroundedInfo (slope : ℚ) : GroundInfo :=
  { grounded := false, isIce := false, isIceSlope := false, canJump := false,
    slopeAngle := slope, slideDirection := none, tiltAngle := none }

/-- `Math.min(1, Math.max(0, x))`. -/
def clamp01 (x : ℚ) : ℚ := min 1 (max 0 x)

def tagIsIce : Option String → Bool
  | some t => t == "ice" || t == "ice_slope"
  | none => false

def tagIsIceSlope : Option String → Bool
  | some t => t == "ice_slope"
  | none => false

/-- One iteration of the contact loop of `getGroundInfo`: orient the
normal relative to the player, require an upward-facing normal
(`nY ≥ 0.6`) and a contact point near the feet, and return the accepted
normal-Y together with the other body's `userData`; `none` means the
loop continues. -/
def acceptContact (pos : Vec3) (footY : ℚ) (c : Contact) : Option (ℚ × Option UserData) :=
  match c.side with
  | .sep => none
  | .biPlayer =>
    let nY := c.ni.y
    if nY < 3/5 then none
    else
      let contactPointY := c.ri.y + pos.y
      let distanceToFeet := footY - contactPointY
      if distanceToFeet > 1 ∨ distanceToFeet < -(3/10) then none
      else some (nY, c.otherUserData)
  | .bjPlayer =>
    let nY := (c.ni.neg).y
    if nY < 3/5 then none
    else
      let contactPointY := c.rj.y + c.otherPos.y
      let distanceToFeet := footY - contactPointY
      if distanceToFeet > 1 ∨ distanceToFeet < -(3/10) then none
      else some (nY, c.otherUserData)

/-- Build the grounded result from an accepted contact or ray normal and
the struck body's `userData`. -/
def groundedResult (m : MathOps) (nY : ℚ) (ud : Option UserData) : GroundInfo :=
  let slopeAngle := m.acosQ (clamp01 nY)
  let canJump := decide (slopeAngle < MAX_JUMPABLE_SLOPE_ANGLE)
  let tag := ud.bind (·.tag)
  let isIce := tagIsIce tag
  let isIceSlope := tagIsIceSlope tag
  { grounded := true, isIce, isIceSlope, canJump, slopeAngle,
    slideDirection := if isIceSlope then ud.bind (·.slideDirection) else none,
    tiltAngle := if isIceSlope then ud.bind (·.tiltAngle) else none }

/-- `Player.getGroundInfo`: contact-based primary check, raycast
fallback, both translated branch-for-branch from the source. -/
def getGroundInfo (m : MathOps) (env : Env) (s : PlayerState) : GroundInfo :=
  if !env.worldExists then notGroundedInfo 0
  else if s.velocity.y > 2 then notGroundedInfo 0
  else
    let footY := footWorldY s
    match env.contacts.findSome? (acceptContact s.position footY) with
    | some hit => groundedResult m hit.1 hit.2
    | none =>
      match env.groundRay with
      | none => notGroundedInfo 0
      | some r =>
        if !r.bodyPresent || r.bodyIsPlayer then notGroundedInfo 0
        else
          let hitY := match r.hitPointWorld with
            | some p => p.y
            | none => 0
          let distanceToGround := footY - hitY
          if distanceToGround > 4/25 ∨ distanceToGround < -(3/25) then notGroundedInfo 0
          else
            let normalY := match r.hitNormalWorld with
              | some n => n.y
              | none => 1
            let slopeAngle := m.acosQ (clamp01 normalY)
            if normalY < 7/10 then notGroundedInfo slopeAngle
            else groundedResult m normalY r.userData

/-- Body of the wall-contact loop: skip mostly-vertical normals
(`|n.y| > 0.25`) and near-zero normals, accept the rest. -/
def checkWallNormal (n : Vec3) : Option Vec3 :=
  if |n.y| > 1/4 then none
  else if n.x ^ 2 + n.y ^ 2 + n.z ^ 2 < 1/1000000 then none
  else some n

/-- `Player.computeWallContactFromContacts`: first contact of the player
whose oriented normal is mostly horizontal (`|n.y| ≤ 0.25`) and not
near-zero. -/
def computeWallContactFromContacts (env : Env) : Option Vec3 :=
  if !env.worldExists then none
  else
    env.contacts.findSome? (fun c =>
      match c.side with
      | .biPlayer => checkWallNormal c.ni.neg
      | .bjPlayer => checkWallNormal c.ni
      | .sep => none)

/-- The per-tick events `setInput` can emit: the `onJumpStart` callback
and (as step metadata) whether the stuck-recovery nudge fired. -/
structure StepEvents where
  jumpStarted : Bool
  nudged : Bool
deriving DecidableEq

/-- `body.quaternion.setFromEuler(0, r, 0)` in cannon-es:
a yaw-only quaternion `(0, sin(r/2), 0, cos(r/2))`. -/
def setFromEulerY (m : MathOps) (r : ℚ) : ℚ × ℚ × ℚ × ℚ :=
  (0, m.sinQ (r / 2), 0, m.cosQ (r / 2))

/-- The stuck condition of `setInput`: near-zero displacement since the
last tick in both the horizontal plane and vertically, and near-zero
vertical velocity. -/
def isStuckCond (m : MathOps) (s : PlayerState) : Bool :=
  let posDiff := s.position.sub s.lastPosition
  let horizontalMove := m.sqrtQ (posDiff.x ^ 2 + posDiff.z ^ 2)
  let verticalMove := |posDiff.y|
  decide (horizontalMove < 1/100) && decide (verticalMove < 1/100) &&
    decide (|s.velocity.y| < 1/2)

/-- Stuck detection and recovery section of `setInput`.  Returns the
updated state and whether the recovery nudge fired this tick. -/
def stuckPhase (m : MathOps) (grounded : Bool) (delta : ℚ) (s : PlayerState) :
    PlayerState × Bool :=
  if grounded then ({ s with stuckTimer := 0 }, false)
  else if isStuckCond m s then
    if s.stuckTimer + delta > 3/20 then
      let pushAngle := m.atan2Q s.velocity.x s.velocity.z + m.piQ
      ({ s with
          position := { s.position with y := s.position.y - 1/10 },
          velocity := { x := m.sinQ pushAngle * 2, y := -3, z := m.cosQ pushAngle * 2 },
          stuckTimer := 0 }, true)
    else ({ s with stuckTimer := s.stuckTimer + delta }, false)
  else ({ s with stuckTimer := 0 }, false)

/-- `this.lastPosition.copy(this.body.position)` after the stuck check. -/
def updateLastPosition (s : PlayerState) : PlayerState :=
  { s with lastPosition := s.position }

/-- Coyote-timer section of `setInput`: refill on jumpable ground,
force-reset on a too-steep stand, count down while airborne. -/
def coyotePhase (gi : GroundInfo) (delta : ℚ) (s : PlayerState) : PlayerState :=
  if gi.grounded && gi.canJump then
    { s with coyoteTimer := COYOTE_TIME, wasGrounded := true }
  else if gi.grounded && !gi.canJump then
    { s with coyoteTimer := 0, wasGrounded := false }
  else if s.wasGrounded ∧ s.coyoteTimer > 0 then
    { s with coyoteTimer := s.coyoteTimer - delta }
  else s

/-- Jump-permission computation and wall-climbing prevention section of
`setInput`: returns the updated state and the effective `canJumpNow`. -/
def wallGuardPhase (gi : GroundInfo) (s : PlayerState) : PlayerState × Bool :=
  let canJumpNow := (gi.grounded && gi.canJump) ||
    (decide (s.coyoteTimer > 0) && !s.isJumping)
  if s.isAgainstWall && !gi.grounded then
    let s1 := { s with coyoteTimer := 0 }
    if !s.isJumping ∧ s.velocity.y > 0 ∧ s.velocity.y < 5/2 then
      ({ s1 with velocity := { s1.velocity with y := 0 } }, false)
    else (s1, false)
  else (s, canJumpNow)

/-- Ice-slope downhill acceleration section of `setInput`.  The
JavaScript guard `groundInfo.slideDirection && groundInfo.tiltAngle`
requires a present slide direction and a present, non-zero tilt angle. -/
def iceSlopePhase (gi : GroundInfo) (s : PlayerState) : PlayerState :=
  match gi.slideDirection, gi.tiltAngle with
  | some sd, some t =>
    if gi.grounded && gi.isIceSlope && (t != 0) then
      let slideAccel := 1/2 * t
      { s with velocity := { s.velocity with
          x := s.velocity.x + sd.1 * slideAccel,
          z := s.velocity.z + sd.2 * slideAccel } }
    else s
  | _, _ => s

/-- Movement section of `setInput`: grounded movement (instant on normal
ground, rate-limited on ice, decay with no input) and airborne smoothed
air control with wall-slide projection. -/
def movementPhase (m : MathOps) (env : Env) (gi : GroundInfo) (input : InputState)
    (cameraAngleY : ℚ) (canJumpNow : Bool) (s : PlayerState) : PlayerState :=
  let hasMovementInput := decide (|input.x| > 1/10) || decide (|input.y| > 1/10)
  if gi.grounded then
    let speed := if input.sprint then MOVE_SPEED * SPRINT_MULTIPLIER else MOVE_SPEED
    if hasMovementInput then
      let targetRotation := cameraAngleY + m.atan2Q input.x input.y
      let vx := m.sinQ targetRotation * speed
      let vz := m.cosQ targetRotation * speed
      let s1 :=
        if gi.isIce then
          { s with velocity := { s.velocity with
              x := s.velocity.x + (vx - s.velocity.x) * (2/25),
              z := s.velocity.z + (vz - s.velocity.z) * (2/25) } }
        else
          { s with velocity := { s.velocity with x := vx, z := vz } }
      { s1 with quaternion := setFromEulerY m targetRotation, animState := .run }
    else if gi.isIce then
      let s1 := { s with velocity := { s.velocity with
          x := s.velocity.x * (49/50), z := s.velocity.z * (49/50) } }
      if |s1.velocity.x| < 3/10 ∧ |s1.velocity.z| < 3/10 then
        { s1 with animState := .idle }
      else { s1 with animState := .run }
    else
      let aboutToJump := input.jump && canJumpNow && !s.isJumping
      let s1 :=
        if !aboutToJump then
          { s with velocity := { s.velocity with x := 0, z := 0 } }
        else s
      { s1 with animState := .idle }
  else if hasMovementInput then
    let targetRotation := cameraAngleY + m.atan2Q input.x input.y
    let vx0 := m.sinQ targetRotation * MOVE_SPEED
    let vz0 := m.cosQ targetRotation * MOVE_SPEED
    let wallNormal := if env.worldExists then env.wallRay else none
    let v :=
      match wallNormal with
      | some n =>
        let dot := vx0 * n.x + vz0 * n.z
        if dot < 0 then (vx0 - dot * n.x, vz0 - dot * n.z) else (vx0, vz0)
      | none => (vx0, vz0)
    { s with
        velocity := { s.velocity with
          x := s.velocity.x + (v.1 - s.velocity.x) * (1/10),
          z := s.velocity.z + (v.2 - s.velocity.z) * (1/10) },
        quaternion := setFromEulerY m targetRotation, animState := .jump }
  else s

/-- Safety reset of the jumping flag on landing (`grounded` with small
vertical velocity). -/
def landingSafetyPhase (gi : GroundInfo) (s : PlayerState) : PlayerState :=
  if gi.grounded ∧ s.velocity.y ≤ 1/2 then
    { s with isJumping := false, jumpTime := 0 }
  else s

/-- Jump section of `setInput`: jump start (instant vertical impulse,
horizontal velocity preserved, coyote timer consumed), jump hold
(upward force while under `MAX_JUMP_TIME`), release clears the flag.
Returns the updated state and whether `onJumpStart` fired. -/
def jumpPhase (input : InputState) (delta : ℚ) (canJumpNow : Bool) (s : PlayerState) :
    PlayerState × Bool :=
  if input.jump then
    if canJumpNow && !s.isJumping then
      ({ s with
          isJumping := true,
          jumpTime := 0,
          coyoteTimer := 0,
          wasGrounded := false,
          velocity := { s.velocity with y := MIN_JUMP_FORCE } }, true)
    else if s.isJumping ∧ s.jumpTime < MAX_JUMP_TIME then
      ({ s with
          force := { s.force with y := s.force.y + JUMP_HOLD_FORCE },
          jumpTime := s.jumpTime + delta }, false)
    else (s, false)
  else ({ s with isJumping := false }, false)

/-- Airborne animation-state selection at the end of `setInput`. -/
def airborneAnimPhase (gi : GroundInfo) (s : PlayerState) : PlayerState :=
  if gi.grounded then s
  else if s.stuckTimer > 1/10 then { s with animState := .fall }
  else if s.isJumping ∧ s.velocity.y > 1 then { s with animState := .jump }
  else if s.velocity.y < -1 then { s with animState := .fall }
  else { s with animState := .fall }

/-- Per-frame wall recomputation at the top of `setInput`:
`this.isAgainstWall = wallContact.againstWall` and, when present, copy
the wall normal. -/
def wallFlagsPhase (env : Env) (s : PlayerState) : PlayerState :=
  let wallContact := computeWallContactFromContacts env
  { s with
    isAgainstWall := wallContact.isSome,
    wallContactNormal :=
      match wallContact with
      | some n => n
      | none => s.wallContactNormal }

/-- `Player.setInput`, assembled from its sections in source order:
early return when dead or won, ground probe, per-frame wall contact,
stuck recovery, coyote timer, wall guard, movement, landing safety,
jumping, airborne animation. -/
def setInput (m : MathOps) (env : Env) (s : PlayerState) (input : InputState)
    (cameraAngleY : ℚ) (delta : ℚ) : PlayerState × StepEvents :=
  if s.isDead || s.hasWon then (s, ⟨false, false⟩)
  else
    let gi := getGroundInfo m env s
    let s0 := wallFlagsPhase env s
    let p1 := stuckPhase m gi.grounded delta s0
    let s2 := updateLastPosition p1.1
    let s3 := coyotePhase gi delta s2
    let p4 := wallGuardPhase gi s3
    let s5 := iceSlopePhase gi p4.1
    let s6 := movementPhase m env gi input cameraAngleY p4.2 s5
    let s7 := landingSafetyPhase gi s6
    let p8 := jumpPhase input delta p4.2 s7
    let s9 := airborneAnimPhase gi p8.1
    (s9, ⟨p8.2, p1.2⟩)

/-- One `collide` event as delivered to the listener installed in the
`Player` constructor. -/
structure CollideEventIn where
  biIsPlayer : Bool
  ni : Vec3
  userData : Option UserData
deriving DecidableEq

/-- The callbacks the collide listener can fire. -/
structure CollideEvents where
  deathFired : Bool
  goalFired : Bool
  coinFired : Bool
deriving DecidableEq

def noCollideEvents : CollideEvents := ⟨false, false, false⟩

/-- First half of the collide listener: on a mostly-horizontal contact
normal, set the wall flag and cancel small non-jump upward velocity
when the probe says airborne. -/
def collideWallCancel (m : MathOps) (env : Env) (s : PlayerState)
    (e : CollideEventIn) : PlayerState :=
  let contactNormal := if e.biIsPlayer then e.ni.neg else e.ni
  if |contactNormal.y| < 3/10 then
    let sA := { s with isAgainstWall := true, wallContactNormal := contactNormal }
    if !sA.isJumping ∧ sA.velocity.y > 0 ∧ sA.velocity.y < 3 then
      if (getGroundInfo m env sA).grounded then sA
      else { sA with velocity := { sA.velocity with y := min sA.velocity.y 0 } }
    else sA
  else s

/-- Second half of the collide listener: dispatch on the other body's
tag (trap/black-hole/turret, goal, spring, coin, conveyor). -/
def collideTagDispatch (s1 : PlayerState) (ud? : Option UserData) :
    PlayerState × Option UserData × CollideEvents :=
  match ud? with
  | none => (s1, none, noCollideEvents)
  | some ud =>
    if ud.tag == some "trap" || ud.tag == some "black_hole" || ud.tag == some "turret" then
      if !s1.isDead then
        ({ s1 with isDead := true, animState := .dead, lastHitBy := ud.owner },
          some ud, ⟨true, false, false⟩)
      else (s1, some ud, noCollideEvents)
    else if ud.tag == some "goal" then
      if !s1.hasWon then ({ s1 with hasWon := true }, some ud, ⟨false, true, false⟩)
      else (s1, some ud, noCollideEvents)
    else if ud.tag == some "spring" then
      ({ s1 with velocity := { s1.velocity with y := 20 }, isJumping := true },
        some ud, noCollideEvents)
    else if ud.tag == some "coin" then
      if !ud.collected then
        ({ s1 with score := s1.score + 1 }, some { ud with collected := true },
          ⟨false, false, true⟩)
      else (s1, some ud, noCollideEvents)
    else if ud.tag == some "conveyor" then
      ({ s1 with velocity := { s1.velocity with z := s1.velocity.z - 5 } },
        some ud, noCollideEvents)
    else (s1, some ud, noCollideEvents)

/-- The collide listener from the `Player` constructor: wall-climbing
velocity cancel, then the tag dispatch.  Returns the new state, the
other body's updated `userData` (the coin branch mutates its
`collected` flag), and which callbacks fired. -/
def handleCollide (m : MathOps) (env : Env) (s : PlayerState) (e : CollideEventIn) :
    PlayerState × Option UserData × CollideEvents :=
  collideTagDispatch (collideWallCancel m env s e) e.userData

/-- `Player.resetPosition`: the fields the source actually resets —
position, velocities, orientation, death/win flags, score, killer
tracking, animation, stuck timer, last position.  The jump flags and
the coyote timer are not among them. -/
def resetPosition (s : PlayerState) (position : Vec3) : PlayerState :=
  { s with
    position := position,
    velocity := Vec3.zero,
    angularVelocity := Vec3.zero,
    quaternion := (0, 0, 0, 1),
    isDead := false,
    hasWon := false,
    score := 0,
    lastHitBy := none,
    animState := .idle,
    stuckTimer := 0,
    lastPosition := position }

/-! ### Concrete sample values used to instantiate theorems -/

/-- A trivial valuation of the `Math` oracle, for concrete runs. -/
def mZero : MathOps :=
  ⟨fun _ => 0, fun _ => 0, fun _ _ => 0, fun _ => 0, fun _ => 0, 0⟩

/-- A world with no contacts and no raycast hits. -/
def emptyEnv : Env := ⟨true, [], none, none⟩

/-- A default player state (fresh body at the origin). -/
def basePlayer : PlayerState :=
  { position := Vec3.zero,
    velocity := Vec3.zero,
    angularVelocity := Vec3.zero,
    quaternion := (0, 0, 0, 1),
    force := Vec3.zero,
    isJumping := false,
    jumpTime := 0,
    coyoteTimer := 0,
    wasGrounded := false,
    lastPosition := Vec3.zero,
    stuckTimer := 0,
    isDead := false,
    hasWon := false,
    score := 0,
    lastHitBy := none,
    animState := .idle,
    isAgainstWall := false,
    wallContactNormal := Vec3.zero,
    localBottomY := -1/2,
    localTopY := 1/2 }

/-- A flat-floor contact (player is `bi`, upward oriented normal, contact
point at the feet) on a body carrying the given `userData`. -/
def floorContact (ud : Option UserData) : Contact :=
  { side := .biPlayer,
    ni := ⟨0, 1, 0⟩,
    ri := ⟨0, -1/2, 0⟩,
    rj := ⟨0, 1/2, 0⟩,
    otherPos := ⟨0, -1, 0⟩,
    otherUserData := ud }

/-- A side-wall contact (player is `bi`, oriented normal horizontal). -/
def wallContactEntry : Contact :=
  { side := .biPlayer,
    ni := ⟨-1, 0, 0⟩,
    ri := ⟨2/5, 1/10, 0⟩,
    rj := ⟨0, 0, 0⟩,
    otherPos := ⟨1, 0, 0⟩,
    otherUserData := none }

/-- `userData` of a plain (untagged) static body. -/
def plainUD : UserData :=
  { tag := none, owner := none, collected := false, slideDirection := none,
    tiltAngle := none }

/-- `userData` of a flat-ice body. -/
def iceUD : UserData :=
  { tag := some "ice", owner := none, collected := false, slideDirection := none,
    tiltAngle := none }

/-- A world whose contact list grounds the player on a plain flat floor. -/
def groundedEnv : Env := ⟨true, [floorContact (some plainUD)], none, none⟩

/-- A world whose contact list grounds the player on flat ice. -/
def iceEnv : Env := ⟨true, [floorContact (some iceUD)], none, none⟩

/-- A world with a single wall-like contact and no ground. -/
def wallEnv : Env := ⟨true, [wallContactEntry], none, none⟩

/-- A world whose contact list holds a qualifying plain-floor contact
first and a qualifying ice contact second. -/
def mixedEnv : Env :=
  ⟨true, [floorContact (some plainUD), floorContact (some iceUD)], none, none⟩

/-- A world whose contact list holds a non-qualifying wall contact first
and a qualifying ice contact second. -/
def iceAfterWallEnv : Env :=
  ⟨true, [wallContactEntry, floorContact (some iceUD)], none, none⟩

/-! ### Multi-tick execution -/

/-- The data of one `setInput` tick: world oracle, input, camera yaw and
time step. -/
structure Step where
  env : Env
  input : InputState
  cam : ℚ
  delta : ℚ
deriving DecidableEq

/-- Run one tick and keep the state. -/
def applyStep (m : MathOps) (s : PlayerState) (st : Step) : PlayerState :=
  (setInput m st.env s st.input st.cam st.delta).1

/-- Run a list of ticks. -/
def runSteps (m : MathOps) (s : PlayerState) (l : List Step) : PlayerState :=
  l.foldl (applyStep m) s

/-- Along this run the probe reports airborne every tick, no wall-like
contact is present, the jump button is never pressed, and time steps are
non-negative. -/
def airborneNoJumpRunB (m : MathOps) : PlayerState → List Step → Bool
  | _, [] => true
  | s, st :: rest =>
    !(getGroundInfo m st.env s).grounded &&
    (computeWallContactFromContacts st.env).isNone &&
    !st.input.jump && decide (0 ≤ st.delta) &&
    airborneNoJumpRunB m (applyStep m s st) rest

/-- Total time elapsed over a list of ticks. -/
def sumDeltas (l : List Step) : ℚ := (l.map Step.delta).sum

/-! ### Phase bookkeeping lemmas -/

theorem stuckPhase_isJumping (m : MathOps) (g : Bool) (δ : ℚ) (s : PlayerState) :
    ((stuckPhase m g δ s).1).isJumping = s.isJumping := by
  unfold stuckPhase
  repeat' split
  all_goals rfl

theorem stuckPhase_coyoteTimer (m : MathOps) (g : Bool) (δ : ℚ) (s : PlayerState) :
    ((stuckPhase m g δ s).1).coyoteTimer = s.coyoteTimer := by
  unfold stuckPhase
  repeat' split
  all_goals rfl

theorem stuckPhase_wasGrounded (m : MathOps) (g : Bool) (δ : ℚ) (s : PlayerState) :
    ((stuckPhase m g δ s).1).wasGrounded = s.wasGrounded := by
  unfold stuckPhase
  repeat' split
  all_goals rfl

theorem stuckPhase_isDead (m : MathOps) (g : Bool) (δ : ℚ) (s : PlayerState) :
    ((stuckPhase m g δ s).1).isDead = s.isDead := by
  unfold stuckPhase
  repeat' split
  all_goals rfl

theorem stuckPhase_hasWon (m : MathOps) (g : Bool) (δ : ℚ) (s : PlayerState) :
    ((stuckPhase m g δ s).1).hasWon = s.hasWon := by
  unfold stuckPhase
  repeat' split
  all_goals rfl

theorem stuckPhase_isAgainstWall (m : MathOps) (g : Bool) (δ : ℚ) (s : PlayerState) :
    ((stuckPhase m g δ s).1).isAgainstWall = s.isAgainstWall := by
  unfold stuckPhase
  repeat' split
  all_goals rfl

theorem stuckPhase_jumpTime (m : MathOps) (g : Bool) (δ : ℚ) (s : PlayerState) :
    ((stuckPhase m g δ s).1).jumpTime = s.jumpTime := by
  unfold stuckPhase
  repeat' split
  all_goals rfl

theorem stuckPhase_grounded_eq (m : MathOps) (δ : ℚ) (s : PlayerState) :
    stuckPhase m true δ s = ({ s with stuckTimer := 0 }, false) := rfl

theorem stuckPhase_nudged_iff (m : MathOps) (g : Bool) (δ : ℚ) (s : PlayerState) :
    (stuckPhase m g δ s).2 =
      (!g && isStuckCond m s && decide (s.stuckTimer + δ > 3/20)) := by
  unfold stuckPhase
  rcases g with _ | _
  · by_cases hs : isStuckCond m s = true
    · by_cases ht : s.stuckTimer + δ > 3/20 <;> simp [hs, ht]
    · simp at hs
      simp [hs]
  · simp

theorem stuckPhase_velocity_of_not_nudged (m : MathOps) (g : Bool) (δ : ℚ)
    (s : PlayerState) (h : (stuckPhase m g δ s).2 = false) :
    ((stuckPhase m g δ s).1).velocity = s.velocity := by
  have hn := stuckPhase_nudged_iff m g δ s
  rw [h] at hn
  cases g with
  | true => rfl
  | false =>
    by_cases hs : isStuckCond m s = true
    · have ht : ¬ s.stuckTimer + δ > 3/20 := by
        intro ht
        simp [hs, ht] at hn
      simp [stuckPhase, hs, ht]
    · simp only [Bool.not_eq_true] at hs
      simp [stuckPhase, hs]

theorem stuckPhase_position_of_not_nudged (m : MathOps) (g : Bool) (δ : ℚ)
    (s : PlayerState) (h : (stuckPhase m g δ s).2 = false) :
    ((stuckPhase m g δ s).1).position = s.position := by
  have hn := stuckPhase_nudged_iff m g δ s
  rw [h] at hn
  cases g with
  | true => rfl
  | false =>
    by_cases hs : isStuckCond m s = true
    · have ht : ¬ s.stuckTimer + δ > 3/20 := by
        intro ht
        simp [hs, ht] at hn
      simp [stuckPhase, hs, ht]
    · simp only [Bool.not_eq_true] at hs
      simp [stuckPhase, hs]

theorem stuckPhase_velocity_of_big_vy (m : MathOps) (δ : ℚ) (s : PlayerState)
    (h : ¬ |s.velocity.y| < 1/2) :
    (stuckPhase m false δ s).1.velocity = s.velocity ∧
      (stuckPhase m false δ s).2 = false := by
  have hs : isStuckCond m s = false := by
    simp only [isStuckCond]
    simp only [Bool.and_eq_false_iff]
    right
    simpa using h
  simp [stuckPhase, hs]

theorem stuckPhase_stuckTimer_grounded (m : MathOps) (δ : ℚ) (s : PlayerState) :
    ((stuckPhase m true δ s).1).stuckTimer = 0 := rfl

theorem stuckPhase_stuckTimer_accum (m : MathOps) (δ : ℚ) (s : PlayerState)
    (hs : isStuckCond m s = true) (ht : ¬ s.stuckTimer + δ > 3/20) :
    ((stuckPhase m false δ s).1).stuckTimer = s.stuckTimer + δ := by
  simp [stuckPhase, hs, ht]

theorem stuckPhase_stuckTimer_reset (m : MathOps) (δ : ℚ) (s : PlayerState)
    (hs : isStuckCond m s = false) :
    ((stuckPhase m false δ s).1).stuckTimer = 0 := by
  simp [stuckPhase, hs]

theorem stuckPhase_stuckTimer_nudge (m : MathOps) (δ : ℚ) (s : PlayerState)
    (hs : isStuckCond m s = true) (ht : s.stuckTimer + δ > 3/20) :
    ((stuckPhase m false δ s).1).stuckTimer = 0 := by
  simp [stuckPhase, hs, ht]

theorem stuckPhase_stuckTimer_eq (m : MathOps) (g : Bool) (δ : ℚ) (s : PlayerState) :
    ((stuckPhase m g δ s).1).stuckTimer =
      (if g then 0
       else if isStuckCond m s then
         (if s.stuckTimer + δ > 3/20 then 0 else s.stuckTimer + δ)
       else 0) := by
  rcases g with _ | _
  · by_cases hs : isStuckCond m s = true
    · by_cases ht : s.stuckTimer + δ > 3/20
      · rw [stuckPhase_stuckTimer_nudge _ _ _ hs ht]
        simp [hs, ht]
      · rw [stuckPhase_stuckTimer_accum _ _ _ hs ht]
        simp [hs, ht]
    · simp only [Bool.not_eq_true] at hs
      rw [stuckPhase_stuckTimer_reset _ _ _ hs]
      simp [hs]
  · rw [stuckPhase_stuckTimer_grounded]
    simp

theorem coyotePhase_velocity (gi : GroundInfo) (δ : ℚ) (s : PlayerState) :
    (coyotePhase gi δ s).velocity = s.velocity := by
  unfold coyotePhase
  repeat' split
  all_goals rfl

theorem coyotePhase_position (gi : GroundInfo) (δ : ℚ) (s : PlayerState) :
    (coyotePhase gi δ s).position = s.position := by
  unfold coyotePhase
  repeat' split
  all_goals rfl

theorem coyotePhase_isJumping (gi : GroundInfo) (δ : ℚ) (s : PlayerState) :
    (coyotePhase gi δ s).isJumping = s.isJumping := by
  unfold coyotePhase
  repeat' split
  all_goals rfl

theorem coyotePhase_isDead (gi : GroundInfo) (δ : ℚ) (s : PlayerState) :
    (coyotePhase gi δ s).isDead = s.isDead := by
  unfold coyotePhase
  repeat' split
  all_goals rfl

theorem coyotePhase_hasWon (gi : GroundInfo) (δ : ℚ) (s : PlayerState) :
    (coyotePhase gi δ s).hasWon = s.hasWon := by
  unfold coyotePhase
  repeat' split
  all_goals rfl

theorem coyotePhase_isAgainstWall (gi : GroundInfo) (δ : ℚ) (s : PlayerState) :
    (coyotePhase gi δ s).isAgainstWall = s.isAgainstWall := by
  unfold coyotePhase
  repeat' split
  all_goals rfl

theorem coyotePhase_stuckTimer (gi : GroundInfo) (δ : ℚ) (s : PlayerState) :
    (coyotePhase gi δ s).stuckTimer = s.stuckTimer := by
  unfold coyotePhase
  repeat' split
  all_goals rfl

theorem coyotePhase_jumpTime (gi : GroundInfo) (δ : ℚ) (s : PlayerState) :
    (coyotePhase gi δ s).jumpTime = s.jumpTime := by
  unfold coyotePhase
  repeat' split
  all_goals rfl

theorem coyotePhase_grounded_canJump (gi : GroundInfo) (δ : ℚ) (s : PlayerState)
    (hg : gi.grounded = true) (hc : gi.canJump = true) :
    coyotePhase gi δ s = { s with coyoteTimer := COYOTE_TIME, wasGrounded := true } := by
  simp [coyotePhase, hg, hc]

theorem coyotePhase_airborne (gi : GroundInfo) (δ : ℚ) (s : PlayerState)
    (hg : gi.grounded = false) :
    coyotePhase gi δ s =
      if s.wasGrounded ∧ s.coyoteTimer > 0 then
        { s with coyoteTimer := s.coyoteTimer - δ }
      else s := by
  simp [coyotePhase, hg]

theorem wallGuardPhase_velocity_x (gi : GroundInfo) (s : PlayerState) :
    ((wallGuardPhase gi s).1).velocity.x = s.velocity.x := by
  unfold wallGuardPhase
  repeat' split
  all_goals rfl

theorem wallGuardPhase_velocity_z (gi : GroundInfo) (s : PlayerState) :
    ((wallGuardPhase gi s).1).velocity.z = s.velocity.z := by
  unfold wallGuardPhase
  repeat' split
  all_goals rfl

theorem wallGuardPhase_position (gi : GroundInfo) (s : PlayerState) :
    ((wallGuardPhase gi s).1).position = s.position := by
  unfold wallGuardPhase
  repeat' split
  all_goals rfl

theorem wallGuardPhase_isJumping (gi : GroundInfo) (s : PlayerState) :
    ((wallGuardPhase gi s).1).isJumping = s.isJumping := by
  unfold wallGuardPhase
  repeat' split
  all_goals rfl

theorem wallGuardPhase_wasGrounded (gi : GroundInfo) (s : PlayerState) :
    ((wallGuardPhase gi s).1).wasGrounded = s.wasGrounded := by
  unfold wallGuardPhase
  repeat' split
  all_goals rfl

theorem wallGuardPhase_isDead (gi : GroundInfo) (s : PlayerState) :
    ((wallGuardPhase gi s).1).isDead = s.isDead := by
  unfold wallGuardPhase
  repeat' split
  all_goals rfl

theorem wallGuardPhase_hasWon (gi : GroundInfo) (s : PlayerState) :
    ((wallGuardPhase gi s).1).hasWon = s.hasWon := by
  unfold wallGuardPhase
  repeat' split
  all_goals rfl

theorem wallGuardPhase_stuckTimer (gi : GroundInfo) (s : PlayerState) :
    ((wallGuardPhase gi s).1).stuckTimer = s.stuckTimer := by
  unfold wallGuardPhase
  repeat' split
  all_goals rfl

theorem wallGuardPhase_jumpTime (gi : GroundInfo) (s : PlayerState) :
    ((wallGuardPhase gi s).1).jumpTime = s.jumpTime := by
  unfold wallGuardPhase
  repeat' split
  all_goals rfl

theorem wallGuardPhase_of_grounded (gi : GroundInfo) (s : PlayerState)
    (hg : gi.grounded = true) :
    wallGuardPhase gi s =
      (s, (gi.grounded && gi.canJump) || (decide (s.coyoteTimer > 0) && !s.isJumping)) := by
  simp [wallGuardPhase, hg]

theorem wallGuardPhase_of_no_wall (gi : GroundInfo) (s : PlayerState)
    (hw : s.isAgainstWall = false) :
    wallGuardPhase gi s =
      (s, (gi.grounded && gi.canJump) || (decide (s.coyoteTimer > 0) && !s.isJumping)) := by
  simp [wallGuardPhase, hw]

theorem wallGuardPhase_wall_zero (gi : GroundInfo) (s : PlayerState)
    (hw : s.isAgainstWall = true) (hg : gi.grounded = false)
    (hj : s.isJumping = false) (h0 : s.velocity.y > 0) (h25 : s.velocity.y < 5/2) :
    wallGuardPhase gi s =
      ({ s with coyoteTimer := 0, velocity := { s.velocity with y := 0 } }, false) := by
  simp [wallGuardPhase, hw, hg, hj, h0, h25]

theorem wallGuardPhase_wall_keep (gi : GroundInfo) (s : PlayerState)
    (hw : s.isAgainstWall = true) (hg : gi.grounded = false)
    (hc : ¬ (s.isJumping = false ∧ s.velocity.y > 0 ∧ s.velocity.y < 5/2)) :
    wallGuardPhase gi s = ({ s with coyoteTimer := 0 }, false) := by
  simp only [wallGuardPhase, hw, hg]
  simp [hc]

theorem iceSlopePhase_of_not_slope (gi : GroundInfo) (s : PlayerState)
    (h : gi.isIceSlope = false) :
    iceSlopePhase gi s = s := by
  unfold iceSlopePhase
  repeat' split
  all_goals simp_all

theorem iceSlopePhase_of_not_grounded (gi : GroundInfo) (s : PlayerState)
    (h : gi.grounded = false) :
    iceSlopePhase gi s = s := by
  unfold iceSlopePhase
  repeat' split
  all_goals simp_all

theorem iceSlopePhase_velocity_y (gi : GroundInfo) (s : PlayerState) :
    (iceSlopePhase gi s).velocity.y = s.velocity.y := by
  unfold iceSlopePhase
  repeat' split
  all_goals rfl

theorem iceSlopePhase_isJumping (gi : GroundInfo) (s : PlayerState) :
    (iceSlopePhase gi s).isJumping = s.isJumping := by
  unfold iceSlopePhase
  repeat' split
  all_goals rfl

theorem iceSlopePhase_coyoteTimer (gi : GroundInfo) (s : PlayerState) :
    (iceSlopePhase gi s).coyoteTimer = s.coyoteTimer := by
  unfold iceSlopePhase
  repeat' split
  all_goals rfl

theorem iceSlopePhase_wasGrounded (gi : GroundInfo) (s : PlayerState) :
    (iceSlopePhase gi s).wasGrounded = s.wasGrounded := by
  unfold iceSlopePhase
  repeat' split
  all_goals rfl

theorem iceSlopePhase_isDead (gi : GroundInfo) (s : PlayerState) :
    (iceSlopePhase gi s).isDead = s.isDead := by
  unfold iceSlopePhase
  repeat' split
  all_goals rfl

theorem iceSlopePhase_hasWon (gi : GroundInfo) (s : PlayerState) :
    (iceSlopePhase gi s).hasWon = s.hasWon := by
  unfold iceSlopePhase
  repeat' split
  all_goals rfl

theorem iceSlopePhase_stuckTimer (gi : GroundInfo) (s : PlayerState) :
    (iceSlopePhase gi s).stuckTimer = s.stuckTimer := by
  unfold iceSlopePhase
  repeat' split
  all_goals rfl

set_option maxHeartbeats 1000000 in
theorem movementPhase_velocity_y (m : MathOps) (env : Env) (gi : GroundInfo)
    (input : InputState) (cam : ℚ) (cj : Bool) (s : PlayerState) :
    (movementPhase m env gi input cam cj s).velocity.y = s.velocity.y := by
  unfold movementPhase
  dsimp only
  repeat' split
  all_goals rfl

theorem movementPhase_isJumping (m : MathOps) (env : Env) (gi : GroundInfo)
    (input : InputState) (cam : ℚ) (cj : Bool) (s : PlayerState) :
    (movementPhase m env gi input cam cj s).isJumping = s.isJumping := by
  unfold movementPhase
  dsimp only
  repeat' split
  all_goals rfl

theorem movementPhase_coyoteTimer (m : MathOps) (env : Env) (gi : GroundInfo)
    (input : InputState) (cam : ℚ) (cj : Bool) (s : PlayerState) :
    (movementPhase m env gi input cam cj s).coyoteTimer = s.coyoteTimer := by
  unfold movementPhase
  dsimp only
  repeat' split
  all_goals rfl

theorem movementPhase_wasGrounded (m : MathOps) (env : Env) (gi : GroundInfo)
    (input : InputState) (cam : ℚ) (cj : Bool) (s : PlayerState) :
    (movementPhase m env gi input cam cj s).wasGrounded = s.wasGrounded := by
  unfold movementPhase
  dsimp only
  repeat' split
  all_goals rfl

theorem movementPhase_isDead (m : MathOps) (env : Env) (gi : GroundInfo)
    (input : InputState) (cam : ℚ) (cj : Bool) (s : PlayerState) :
    (movementPhase m env gi input cam cj s).isDead = s.isDead := by
  unfold movementPhase
  dsimp only
  repeat' split
  all_goals rfl

theorem movementPhase_hasWon (m : MathOps) (env : Env) (gi : GroundInfo)
    (input : InputState) (cam : ℚ) (cj : Bool) (s : PlayerState) :
    (movementPhase m env gi input cam cj s).hasWon = s.hasWon := by
  unfold movementPhase
  dsimp only
  repeat' split
  all_goals rfl

theorem movementPhase_stuckTimer (m : MathOps) (env : Env) (gi : GroundInfo)
    (input : InputState) (cam : ℚ) (cj : Bool) (s : PlayerState) :
    (movementPhase m env gi input cam cj s).stuckTimer = s.stuckTimer := by
  unfold movementPhase
  dsimp only
  repeat' split
  all_goals rfl

theorem movementPhase_jumpTime (m : MathOps) (env : Env) (gi : GroundInfo)
    (input : InputState) (cam : ℚ) (cj : Bool) (s : PlayerState) :
    (movementPhase m env gi input cam cj s).jumpTime = s.jumpTime := by
  unfold movementPhase
  dsimp only
  repeat' split
  all_goals rfl

theorem movementPhase_position (m : MathOps) (env : Env) (gi : GroundInfo)
    (input : InputState) (cam : ℚ) (cj : Bool) (s : PlayerState) :
    (movementPhase m env gi input cam cj s).position = s.position := by
  unfold movementPhase
  dsimp only
  repeat' split
  all_goals rfl

theorem movementPhase_ice_noinput (m : MathOps) (env : Env) (gi : GroundInfo)
    (input : InputState) (cam : ℚ) (cj : Bool) (s : PlayerState)
    (hg : gi.grounded = true) (hice : gi.isIce = true)
    (hx : ¬ |input.x| > 1/10) (hy : ¬ |input.y| > 1/10) :
    (movementPhase m env gi input cam cj s).velocity.x = s.velocity.x * (49/50) ∧
      (movementPhase m env gi input cam cj s).velocity.z = s.velocity.z * (49/50) := by
  have hmi : (decide (|input.x| > 1/10) || decide (|input.y| > 1/10)) = false := by
    simp only [Bool.or_eq_false_iff, decide_eq_false_iff_not]
    exact ⟨hx, hy⟩
  unfold movementPhase
  dsimp only
  simp only [hg, hice, hmi, Bool.false_eq_true, if_false, if_true]
  constructor
  all_goals
    split
    all_goals rfl

theorem movementPhase_normal_noinput (m : MathOps) (env : Env) (gi : GroundInfo)
    (input : InputState) (cam : ℚ) (cj : Bool) (s : PlayerState)
    (hg : gi.grounded = true) (hice : gi.isIce = false)
    (hx : ¬ |input.x| > 1/10) (hy : ¬ |input.y| > 1/10)
    (hj : input.jump = false) :
    (movementPhase m env gi input cam cj s).velocity.x = 0 ∧
      (movementPhase m env gi input cam cj s).velocity.z = 0 := by
  have hmi : (decide (|input.x| > 1/10) || decide (|input.y| > 1/10)) = false := by
    simp only [Bool.or_eq_false_iff, decide_eq_false_iff_not]
    exact ⟨hx, hy⟩
  unfold movementPhase
  dsimp only
  simp only [hg, hice, hmi, Bool.false_eq_true, if_false, if_true]
  simp [hj]

theorem landingSafetyPhase_velocity (gi : GroundInfo) (s : PlayerState) :
    (landingSafetyPhase gi s).velocity = s.velocity := by
  unfold landingSafetyPhase
  repeat' split
  all_goals rfl

theorem landingSafetyPhase_position (gi : GroundInfo) (s : PlayerState) :
    (landingSafetyPhase gi s).position = s.position := by
  unfold landingSafetyPhase
  repeat' split
  all_goals rfl

theorem landingSafetyPhase_coyoteTimer (gi : GroundInfo) (s : PlayerState) :
    (landingSafetyPhase gi s).coyoteTimer = s.coyoteTimer := by
  unfold landingSafetyPhase
  repeat' split
  all_goals rfl

theorem landingSafetyPhase_wasGrounded (gi : GroundInfo) (s : PlayerState) :
    (landingSafetyPhase gi s).wasGrounded = s.wasGrounded := by
  unfold landingSafetyPhase
  repeat' split
  all_goals rfl

theorem landingSafetyPhase_isDead (gi : GroundInfo) (s : PlayerState) :
    (landingSafetyPhase gi s).isDead = s.isDead := by
  unfold landingSafetyPhase
  repeat' split
  all_goals rfl

theorem landingSafetyPhase_hasWon (gi : GroundInfo) (s : PlayerState) :
    (landingSafetyPhase gi s).hasWon = s.hasWon := by
  unfold landingSafetyPhase
  repeat' split
  all_goals rfl

theorem landingSafetyPhase_stuckTimer (gi : GroundInfo) (s : PlayerState) :
    (landingSafetyPhase gi s).stuckTimer = s.stuckTimer := by
  unfold landingSafetyPhase
  repeat' split
  all_goals rfl

theorem landingSafetyPhase_airborne (gi : GroundInfo) (s : PlayerState)
    (hg : gi.grounded = false) :
    landingSafetyPhase gi s = s := by
  simp [landingSafetyPhase, hg]

theorem landingSafetyPhase_isJumping_eq (gi : GroundInfo) (s : PlayerState) :
    (landingSafetyPhase gi s).isJumping =
      if gi.grounded = true ∧ s.velocity.y ≤ 1/2 then false else s.isJumping := by
  unfold landingSafetyPhase
  repeat' split
  all_goals simp_all

theorem jumpPhase_velocity_x (input : InputState) (δ : ℚ) (cj : Bool) (s : PlayerState) :
    ((jumpPhase input δ cj s).1).velocity.x = s.velocity.x := by
  unfold jumpPhase
  repeat' split
  all_goals rfl

theorem jumpPhase_velocity_z (input : InputState) (δ : ℚ) (cj : Bool) (s : PlayerState) :
    ((jumpPhase input δ cj s).1).velocity.z = s.velocity.z := by
  unfold jumpPhase
  repeat' split
  all_goals rfl

theorem jumpPhase_position (input : InputState) (δ : ℚ) (cj : Bool) (s : PlayerState) :
    ((jumpPhase input δ cj s).1).position = s.position := by
  unfold jumpPhase
  repeat' split
  all_goals rfl

theorem jumpPhase_isDead (input : InputState) (δ : ℚ) (cj : Bool) (s : PlayerState) :
    ((jumpPhase input δ cj s).1).isDead = s.isDead := by
  unfold jumpPhase
  repeat' split
  all_goals rfl

theorem jumpPhase_hasWon (input : InputState) (δ : ℚ) (cj : Bool) (s : PlayerState) :
    ((jumpPhase input δ cj s).1).hasWon = s.hasWon := by
  unfold jumpPhase
  repeat' split
  all_goals rfl

theorem jumpPhase_stuckTimer (input : InputState) (δ : ℚ) (cj : Bool) (s : PlayerState) :
    ((jumpPhase input δ cj s).1).stuckTimer = s.stuckTimer := by
  unfold jumpPhase
  repeat' split
  all_goals rfl

theorem jumpPhase_started_iff (input : InputState) (δ : ℚ) (cj : Bool) (s : PlayerState) :
    (jumpPhase input δ cj s).2 = (input.jump && cj && !s.isJumping) := by
  unfold jumpPhase
  repeat' split
  all_goals simp_all

theorem jumpPhase_of_started (input : InputState) (δ : ℚ) (cj : Bool) (s : PlayerState)
    (hj : input.jump = true) (hc : cj = true) (hnj : s.isJumping = false) :
    jumpPhase input δ cj s =
      ({ s with
          isJumping := true,
          jumpTime := 0,
          coyoteTimer := 0,
          wasGrounded := false,
          velocity := { s.velocity with y := MIN_JUMP_FORCE } }, true) := by
  simp [jumpPhase, hj, hc, hnj]

theorem jumpPhase_no_jump (input : InputState) (δ : ℚ) (cj : Bool) (s : PlayerState)
    (hj : input.jump = false) :
    jumpPhase input δ cj s = ({ s with isJumping := false }, false) := by
  simp [jumpPhase, hj]

theorem jumpPhase_velocity_y_keep (input : InputState) (δ : ℚ) (s : PlayerState) :
    ((jumpPhase input δ false s).1).velocity.y = s.velocity.y := by
  unfold jumpPhase
  repeat' split
  all_goals simp_all

theorem airborneAnimPhase_velocity (gi : GroundInfo) (s : PlayerState) :
    (airborneAnimPhase gi s).velocity = s.velocity := by
  unfold airborneAnimPhase
  repeat' split
  all_goals rfl

theorem airborneAnimPhase_position (gi : GroundInfo) (s : PlayerState) :
    (airborneAnimPhase gi s).position = s.position := by
  unfold airborneAnimPhase
  repeat' split
  all_goals rfl

theorem airborneAnimPhase_isJumping (gi : GroundInfo) (s : PlayerState) :
    (airborneAnimPhase gi s).isJumping = s.isJumping := by
  unfold airborneAnimPhase
  repeat' split
  all_goals rfl

theorem airborneAnimPhase_jumpTime (gi : GroundInfo) (s : PlayerState) :
    (airborneAnimPhase gi s).jumpTime = s.jumpTime := by
  unfold airborneAnimPhase
  repeat' split
  all_goals rfl

theorem airborneAnimPhase_coyoteTimer (gi : GroundInfo) (s : PlayerState) :
    (airborneAnimPhase gi s).coyoteTimer = s.coyoteTimer := by
  unfold airborneAnimPhase
  repeat' split
  all_goals rfl

theorem airborneAnimPhase_wasGrounded (gi : GroundInfo) (s : PlayerState) :
    (airborneAnimPhase gi s).wasGrounded = s.wasGrounded := by
  unfold airborneAnimPhase
  repeat' split
  all_goals rfl

theorem airborneAnimPhase_isDead (gi : GroundInfo) (s : PlayerState) :
    (airborneAnimPhase gi s).isDead = s.isDead := by
  unfold airborneAnimPhase
  repeat' split
  all_goals rfl

theorem airborneAnimPhase_hasWon (gi : GroundInfo) (s : PlayerState) :
    (airborneAnimPhase gi s).hasWon = s.hasWon := by
  unfold airborneAnimPhase
  repeat' split
  all_goals rfl

theorem airborneAnimPhase_stuckTimer (gi : GroundInfo) (s : PlayerState) :
    (airborneAnimPhase gi s).stuckTimer = s.stuckTimer := by
  unfold airborneAnimPhase
  repeat' split
  all_goals rfl

/-! ### `setInput`-level bookkeeping -/

theorem setInput_isDead (m : MathOps) (env : Env) (s : PlayerState)
    (input : InputState) (cam δ : ℚ) :
    ((setInput m env s input cam δ).1).isDead = s.isDead := by
  unfold setInput
  dsimp only
  split
  · rfl
  · rw [airborneAnimPhase_isDead, jumpPhase_isDead, landingSafetyPhase_isDead,
      movementPhase_isDead, iceSlopePhase_isDead, wallGuardPhase_isDead,
      coyotePhase_isDead]
    simp only [updateLastPosition]
    rw [stuckPhase_isDead]
    rfl

theorem setInput_hasWon (m : MathOps) (env : Env) (s : PlayerState)
    (input : InputState) (cam δ : ℚ) :
    ((setInput m env s input cam δ).1).hasWon = s.hasWon := by
  unfold setInput
  dsimp only
  split
  · rfl
  · rw [airborneAnimPhase_hasWon, jumpPhase_hasWon, landingSafetyPhase_hasWon,
      movementPhase_hasWon, iceSlopePhase_hasWon, wallGuardPhase_hasWon,
      coyotePhase_hasWon]
    simp only [updateLastPosition]
    rw [stuckPhase_hasWon]
    rfl

/-! ### Claims -/

/-- C10.  When `isDead` or `hasWon` is set, `setInput` returns at once:
the state is unchanged in every field and no event fires. -/
theorem setInput_noop_when_dead_or_won (m : MathOps) (env : Env) (s : PlayerState)
    (input : InputState) (cam δ : ℚ) (h : s.isDead = true ∨ s.hasWon = true) :
    setInput m env s input cam δ = (s, ⟨false, false⟩) := by
  rcases h with h | h
  all_goals simp [setInput, h]

/-- Witness for C10 at a concrete dead state. -/
theorem setInput_noop_when_dead_or_won_witness :
    setInput mZero emptyEnv { basePlayer with isDead := true }
        ⟨1, 0, true, false⟩ 0 (1/60) =
      ({ basePlayer with isDead := true }, ⟨false, false⟩) :=
  setInput_noop_when_dead_or_won mZero emptyEnv { basePlayer with isDead := true }
    ⟨1, 0, true, false⟩ 0 (1/60) (Or.inl rfl)

/-- C1.  Evaluating `resetPosition` on a state with an in-flight jump:
velocity, death/win flags and the stuck timer are reset, but the jump
flag, the jump timer and the coyote timer keep their old values, so the
jump state is not returned to Grounded by this operation. -/
theorem resetPosition_keeps_jump_state :
    (resetPosition
        { basePlayer with
            isJumping := true, jumpTime := 1/5, coyoteTimer := 1/20,
            wasGrounded := true, isDead := true, hasWon := true,
            stuckTimer := 1, velocity := ⟨1, 2, 3⟩ }
        ⟨0, 5, 0⟩).isJumping = true ∧
    (resetPosition
        { basePlayer with
            isJumping := true, jumpTime := 1/5, coyoteTimer := 1/20,
            wasGrounded := true, isDead := true, hasWon := true,
            stuckTimer := 1, velocity := ⟨1, 2, 3⟩ }
        ⟨0, 5, 0⟩).jumpTime = 1/5 ∧
    (resetPosition
        { basePlayer with
            isJumping := true, jumpTime := 1/5, coyoteTimer := 1/20,
            wasGrounded := true, isDead := true, hasWon := true,
            stuckTimer := 1, velocity := ⟨1, 2, 3⟩ }
        ⟨0, 5, 0⟩).coyoteTimer = 1/20 ∧
    (resetPosition
        { basePlayer with
            isJumping := true, jumpTime := 1/5, coyoteTimer := 1/20,
            wasGrounded := true, isDead := true, hasWon := true,
            stuckTimer := 1, velocity := ⟨1, 2, 3⟩ }
        ⟨0, 5, 0⟩).velocity = Vec3.zero ∧
    (resetPosition
        { basePlayer with
            isJumping := true, jumpTime := 1/5, coyoteTimer := 1/20,
            wasGrounded := true, isDead := true, hasWon := true,
            stuckTimer := 1, velocity := ⟨1, 2, 3⟩ }
        ⟨0, 5, 0⟩).isDead = false ∧
    (resetPosition
        { basePlayer with
            isJumping := true, jumpTime := 1/5, coyoteTimer := 1/20,
            wasGrounded := true, isDead := true, hasWon := true,
            stuckTimer := 1, velocity := ⟨1, 2, 3⟩ }
        ⟨0, 5, 0⟩).hasWon = false ∧
    (resetPosition
        { basePlayer with
            isJumping := true, jumpTime := 1/5, coyoteTimer := 1/20,
            wasGrounded := true, isDead := true, hasWon := true,
            stuckTimer := 1, velocity := ⟨1, 2, 3⟩ }
        ⟨0, 5, 0⟩).stuckTimer = 0 := by
  repeat' constructor

theorem setInput_nudged_eq (m : MathOps) (env : Env) (s : PlayerState)
    (input : InputState) (cam δ : ℚ) (hd : s.isDead = false) (hw : s.hasWon = false) :
    ((setInput m env s input cam δ).2).nudged =
      (!(getGroundInfo m env s).grounded && isStuckCond m s &&
        decide (s.stuckTimer + δ > 3/20)) := by
  unfold setInput
  dsimp only
  rw [if_neg (by simp [hd, hw])]
  rw [stuckPhase_nudged_iff]
  rfl

theorem setInput_stuckTimer_eq (m : MathOps) (env : Env) (s : PlayerState)
    (input : InputState) (cam δ : ℚ) (hd : s.isDead = false) (hw : s.hasWon = false) :
    ((setInput m env s input cam δ).1).stuckTimer =
      (if (getGroundInfo m env s).grounded then 0
       else if isStuckCond m s then
         (if s.stuckTimer + δ > 3/20 then 0 else s.stuckTimer + δ)
       else 0) := by
  unfold setInput
  dsimp only
  rw [if_neg (by simp [hd, hw])]
  rw [airborneAnimPhase_stuckTimer, jumpPhase_stuckTimer, landingSafetyPhase_stuckTimer,
    movementPhase_stuckTimer, iceSlopePhase_stuckTimer, wallGuardPhase_stuckTimer,
    coyotePhase_stuckTimer]
  simp only [updateLastPosition]
  rw [stuckPhase_stuckTimer_eq]
  rfl

/-- C8.  The stuck-recovery nudge fires exactly when the probe reports
airborne, the stuck condition (near-zero displacement and near-zero
vertical velocity) holds, and the accumulated stuck timer plus this
tick's `delta` exceeds 0.15 s; a grounded tick never nudges and resets
the timer to 0; a non-stuck airborne tick resets the timer; a stuck
airborne tick below the threshold accumulates `delta`. -/
theorem stuck_recovery_guard (m : MathOps) (env : Env) (s : PlayerState)
    (input : InputState) (cam δ : ℚ) (hd : s.isDead = false) (hw : s.hasWon = false) :
    ((getGroundInfo m env s).grounded = true →
        ((setInput m env s input cam δ).2).nudged = false ∧
        ((setInput m env s input cam δ).1).stuckTimer = 0) ∧
    (((setInput m env s input cam δ).2).nudged = true →
        (getGroundInfo m env s).grounded = false ∧ isStuckCond m s = true ∧
        s.stuckTimer + δ > 3/20 ∧
        ((setInput m env s input cam δ).1).stuckTimer = 0) ∧
    ((getGroundInfo m env s).grounded = false → isStuckCond m s = true →
        ¬ s.stuckTimer + δ > 3/20 →
        ((setInput m env s input cam δ).2).nudged = false ∧
        ((setInput m env s input cam δ).1).stuckTimer = s.stuckTimer + δ) ∧
    ((getGroundInfo m env s).grounded = false → isStuckCond m s = false →
        ((setInput m env s input cam δ).2).nudged = false ∧
        ((setInput m env s input cam δ).1).stuckTimer = 0) := by
  rw [setInput_nudged_eq m env s input cam δ hd hw,
    setInput_stuckTimer_eq m env s input cam δ hd hw]
  refine ⟨?_, ?_, ?_, ?_⟩
  · intro hg
    simp [hg]
  · intro hn
    simp only [Bool.and_eq_true, Bool.not_eq_true', decide_eq_true_eq] at hn
    obtain ⟨⟨hg, hs⟩, ht⟩ := hn
    simp [hg, hs, ht]
  · intro hg hs ht
    simp [hg, hs, ht]
  · intro hg hs
    simp [hg, hs]

/-- Witness for C8 at a concrete grounded tick. -/
theorem stuck_recovery_guard_witness :
    ((setInput mZero groundedEnv basePlayer ⟨0, 0, false, false⟩ 0 (1/60)).2).nudged = false ∧
    ((setInput mZero groundedEnv basePlayer ⟨0, 0, false, false⟩ 0 (1/60)).1).stuckTimer = 0 := by
  have hg : (getGroundInfo mZero groundedEnv basePlayer).grounded = true := by
    norm_num [getGroundInfo, groundedEnv, basePlayer, floorContact, acceptContact,
      footWorldY, Vec3.zero, notGroundedInfo, groundedResult, List.findSome?, mZero,
      plainUD, clamp01, tagIsIce, tagIsIceSlope, MAX_JUMPABLE_SLOPE_ANGLE]
  exact (stuck_recovery_guard mZero groundedEnv basePlayer ⟨0, 0, false, false⟩ 0 (1/60)
    rfl rfl).1 hg

/-- Shared: on a grounded tick that is not on ice, with no movement
input and no jump input, the movement section sets the horizontal
velocity to zero. -/
theorem grounded_normal_noinput_stops (m : MathOps) (env : Env) (s : PlayerState)
    (input : InputState) (cam δ : ℚ)
    (hd : s.isDead = false) (hw : s.hasWon = false)
    (hg : (getGroundInfo m env s).grounded = true)
    (hice : (getGroundInfo m env s).isIce = false)
    (hx : ¬ |input.x| > 1/10) (hy : ¬ |input.y| > 1/10)
    (hj : input.jump = false) :
    ((setInput m env s input cam δ).1).velocity.x = 0 ∧
      ((setInput m env s input cam δ).1).velocity.z = 0 := by
  unfold setInput
  dsimp only
  rw [if_neg (by simp [hd, hw])]
  constructor
  · rw [airborneAnimPhase_velocity, jumpPhase_velocity_x, landingSafetyPhase_velocity,
      (movementPhase_normal_noinput m env _ input cam _ _ hg hice hx hy hj).1]
  · rw [airborneAnimPhase_velocity, jumpPhase_velocity_z, landingSafetyPhase_velocity,
      (movementPhase_normal_noinput m env _ input cam _ _ hg hice hx hy hj).2]

/-- C6.  Grounded on flat ice with zero movement input: both horizontal
velocity components are multiplied by the decay factor 0.98, so the
squared horizontal speed is non-increasing and the per-tick decrease is
bounded by the (1 - 0.98²) fraction the factor allows. -/
theorem ice_noinput_decay (m : MathOps) (env : Env) (s : PlayerState)
    (input : InputState) (cam δ : ℚ)
    (hd : s.isDead = false) (hw : s.hasWon = false)
    (hg : (getGroundInfo m env s).grounded = true)
    (hice : (getGroundInfo m env s).isIce = true)
    (hslope : (getGroundInfo m env s).isIceSlope = false)
    (hx : input.x = 0) (hy : input.y = 0) :
    ((setInput m env s input cam δ).1).velocity.x = s.velocity.x * (49/50) ∧
    ((setInput m env s input cam δ).1).velocity.z = s.velocity.z * (49/50) ∧
    ((setInput m env s input cam δ).1).velocity.x ^ 2 +
        ((setInput m env s input cam δ).1).velocity.z ^ 2 ≤
      s.velocity.x ^ 2 + s.velocity.z ^ 2 ∧
    (s.velocity.x ^ 2 + s.velocity.z ^ 2) -
        (((setInput m env s input cam δ).1).velocity.x ^ 2 +
          ((setInput m env s input cam δ).1).velocity.z ^ 2) ≤
      (1 - (49/50)^2) * (s.velocity.x ^ 2 + s.velocity.z ^ 2) := by
  have hx' : ¬ |input.x| > 1/10 := by
    rw [hx]
    norm_num
  have hy' : ¬ |input.y| > 1/10 := by
    rw [hy]
    norm_num
  have heqx : ((setInput m env s input cam δ).1).velocity.x = s.velocity.x * (49/50) := by
    unfold setInput
    dsimp only
    rw [if_neg (by simp [hd, hw])]
    rw [airborneAnimPhase_velocity, jumpPhase_velocity_x, landingSafetyPhase_velocity,
      (movementPhase_ice_noinput m env _ input cam _ _ hg hice hx' hy').1,
      iceSlopePhase_of_not_slope _ _ hslope, wallGuardPhase_velocity_x,
      coyotePhase_velocity]
    simp only [updateLastPosition]
    rw [hg, stuckPhase_grounded_eq]
    rfl
  have heqz : ((setInput m env s input cam δ).1).velocity.z = s.velocity.z * (49/50) := by
    unfold setInput
    dsimp only
    rw [if_neg (by simp [hd, hw])]
    rw [airborneAnimPhase_velocity, jumpPhase_velocity_z, landingSafetyPhase_velocity,
      (movementPhase_ice_noinput m env _ input cam _ _ hg hice hx' hy').2,
      iceSlopePhase_of_not_slope _ _ hslope, wallGuardPhase_velocity_z,
      coyotePhase_velocity]
    simp only [updateLastPosition]
    rw [hg, stuckPhase_grounded_eq]
    rfl
  refine ⟨heqx, heqz, ?_, ?_⟩
  · rw [heqx, heqz]
    nlinarith [sq_nonneg s.velocity.x, sq_nonneg s.velocity.z]
  · rw [heqx, heqz]
    nlinarith [sq_nonneg s.velocity.x, sq_nonneg s.velocity.z]

/-- Witness for C6 on concrete flat ice with velocity (1, 0, 1). -/
theorem ice_noinput_decay_witness :
    ((setInput mZero iceEnv { basePlayer with velocity := ⟨1, 0, 1⟩ }
        ⟨0, 0, false, false⟩ 0 (1/60)).1).velocity.x = 1 * (49/50) ∧
    ((setInput mZero iceEnv { basePlayer with velocity := ⟨1, 0, 1⟩ }
        ⟨0, 0, false, false⟩ 0 (1/60)).1).velocity.z = 1 * (49/50) := by
  have h := ice_noinput_decay mZero iceEnv { basePlayer with velocity := ⟨1, 0, 1⟩ }
    ⟨0, 0, false, false⟩ 0 (1/60) rfl rfl
    (by
      norm_num [getGroundInfo, iceEnv, basePlayer, floorContact, acceptContact,
        footWorldY, Vec3.zero, notGroundedInfo, groundedResult, List.findSome?, mZero,
        iceUD, clamp01, tagIsIce, tagIsIceSlope, MAX_JUMPABLE_SLOPE_ANGLE])
    (by
      norm_num [getGroundInfo, iceEnv, basePlayer, floorContact, acceptContact,
        footWorldY, Vec3.zero, notGroundedInfo, groundedResult, List.findSome?, mZero,
        iceUD, clamp01, tagIsIce, tagIsIceSlope, MAX_JUMPABLE_SLOPE_ANGLE])
    (by
      norm_num [getGroundInfo, iceEnv, basePlayer, floorContact, acceptContact,
        footWorldY, Vec3.zero, notGroundedInfo, groundedResult, List.findSome?, mZero,
        iceUD, clamp01, tagIsIce, tagIsIceSlope, MAX_JUMPABLE_SLOPE_ANGLE]
      decide)
    rfl rfl
  exact ⟨h.1, h.2.1⟩

/-- C5 counterexample: a character whose horizontal velocity matches a
moving floor (velocity x = 3) and who gives no input has its horizontal
velocity set to 0 by the next grounded tick — nothing reads the ground
body's velocity, so no platform baseline is inherited and the rider is
left stationary. -/
theorem no_platform_inheritance_cex :
    ((setInput mZero groundedEnv { basePlayer with velocity := ⟨3, 0, 0⟩ }
        ⟨0, 0, false, false⟩ 0 (1/60)).1).velocity.x = 0 ∧ (0 : ℚ) ≠ 3 := by
  refine ⟨?_, by norm_num⟩
  exact (grounded_normal_noinput_stops mZero groundedEnv
    { basePlayer with velocity := ⟨3, 0, 0⟩ } ⟨0, 0, false, false⟩ 0 (1/60) rfl rfl
    (by
      norm_num [getGroundInfo, groundedEnv, basePlayer, floorContact, acceptContact,
        footWorldY, Vec3.zero, notGroundedInfo, groundedResult, List.findSome?, mZero,
        plainUD, clamp01, tagIsIce, tagIsIceSlope, MAX_JUMPABLE_SLOPE_ANGLE])
    (by
      norm_num [getGroundInfo, groundedEnv, basePlayer, floorContact, acceptContact,
        footWorldY, Vec3.zero, notGroundedInfo, groundedResult, List.findSome?, mZero,
        plainUD, clamp01, tagIsIce, tagIsIceSlope, MAX_JUMPABLE_SLOPE_ANGLE])
    (by norm_num) (by norm_num) rfl).1

/-- C5 (amended).  On a grounded non-ice tick with no movement input and
no jump input the horizontal velocity is set to (0, 0) outright; the
ground body's own velocity never enters the computation, so there is no
moving-platform velocity inheritance. -/
theorem grounded_noinput_velocity_zero (m : MathOps) (env : Env) (s : PlayerState)
    (input : InputState) (cam δ : ℚ)
    (hd : s.isDead = false) (hw : s.hasWon = false)
    (hg : (getGroundInfo m env s).grounded = true)
    (hice : (getGroundInfo m env s).isIce = false)
    (hx : ¬ |input.x| > 1/10) (hy : ¬ |input.y| > 1/10)
    (hj : input.jump = false) :
    ((setInput m env s input cam δ).1).velocity.x = 0 ∧
      ((setInput m env s input cam δ).1).velocity.z = 0 :=
  grounded_normal_noinput_stops m env s input cam δ hd hw hg hice hx hy hj

/-- Witness for C5's amended statement on the concrete moving-floor
rider. -/
theorem grounded_noinput_velocity_zero_witness :
    ((setInput mZero groundedEnv { basePlayer with velocity := ⟨3, 0, 0⟩ }
        ⟨0, 0, false, false⟩ 0 (1/60)).1).velocity.x = 0 ∧
    ((setInput mZero groundedEnv { basePlayer with velocity := ⟨3, 0, 0⟩ }
        ⟨0, 0, false, false⟩ 0 (1/60)).1).velocity.z = 0 :=
  grounded_noinput_velocity_zero mZero groundedEnv
    { basePlayer with velocity := ⟨3, 0, 0⟩ } ⟨0, 0, false, false⟩ 0 (1/60) rfl rfl
    (by
      norm_num [getGroundInfo, groundedEnv, basePlayer, floorContact, acceptContact,
        footWorldY, Vec3.zero, notGroundedInfo, groundedResult, List.findSome?, mZero,
        plainUD, clamp01, tagIsIce, tagIsIceSlope, MAX_JUMPABLE_SLOPE_ANGLE])
    (by
      norm_num [getGroundInfo, groundedEnv, basePlayer, floorContact, acceptContact,
        footWorldY, Vec3.zero, notGroundedInfo, groundedResult, List.findSome?, mZero,
        plainUD, clamp01, tagIsIce, tagIsIceSlope, MAX_JUMPABLE_SLOPE_ANGLE])
    (by norm_num) (by norm_num) rfl

theorem wallFlagsPhase_velocity (env : Env) (s : PlayerState) :
    (wallFlagsPhase env s).velocity = s.velocity := rfl

theorem wallFlagsPhase_isJumping (env : Env) (s : PlayerState) :
    (wallFlagsPhase env s).isJumping = s.isJumping := rfl

theorem wallFlagsPhase_isAgainstWall (env : Env) (s : PlayerState) :
    (wallFlagsPhase env s).isAgainstWall =
      (computeWallContactFromContacts env).isSome := rfl

/-- Shared: airborne against a wall, not jumping, no stuck nudge, small
upward velocity — the wall guard zeroes the vertical velocity and
nothing later in the tick changes it. -/
theorem setInput_wall_zeroes_small_vy (m : MathOps) (env : Env) (s : PlayerState)
    (input : InputState) (cam δ : ℚ)
    (hd : s.isDead = false) (hw : s.hasWon = false)
    (hg : (getGroundInfo m env s).grounded = false)
    (hwall : (computeWallContactFromContacts env).isSome = true)
    (hj : s.isJumping = false)
    (hn : ((setInput m env s input cam δ).2).nudged = false)
    (h0 : s.velocity.y > 0) (h25 : s.velocity.y < 5/2) :
    ((setInput m env s input cam δ).1).velocity.y = 0 := by
  have hn' := setInput_nudged_eq m env s input cam δ hd hw
  rw [hn] at hn'
  have hP2 : (stuckPhase m false δ (wallFlagsPhase env s)).2 = false := by
    rw [stuckPhase_nudged_iff]
    rw [hg] at hn'
    exact hn'.symm
  have hPv : ((stuckPhase m false δ (wallFlagsPhase env s)).1).velocity = s.velocity := by
    rw [stuckPhase_velocity_of_not_nudged _ _ _ _ hP2, wallFlagsPhase_velocity]
  have hw3 : (coyotePhase (getGroundInfo m env s) δ
      (updateLastPosition (stuckPhase m false δ (wallFlagsPhase env s)).1)).isAgainstWall
      = true := by
    rw [coyotePhase_isAgainstWall]
    simp only [updateLastPosition]
    rw [stuckPhase_isAgainstWall, wallFlagsPhase_isAgainstWall, hwall]
  have hv3 : (coyotePhase (getGroundInfo m env s) δ
      (updateLastPosition (stuckPhase m false δ (wallFlagsPhase env s)).1)).velocity
      = s.velocity := by
    rw [coyotePhase_velocity]
    simp only [updateLastPosition]
    exact hPv
  have hj3 : (coyotePhase (getGroundInfo m env s) δ
      (updateLastPosition (stuckPhase m false δ (wallFlagsPhase env s)).1)).isJumping
      = false := by
    rw [coyotePhase_isJumping]
    simp only [updateLastPosition]
    rw [stuckPhase_isJumping, wallFlagsPhase_isJumping, hj]
  unfold setInput
  dsimp only
  rw [if_neg (by simp [hd, hw])]
  rw [hg]
  rw [wallGuardPhase_wall_zero _ _ hw3 hg hj3 (by rw [hv3]; exact h0) (by rw [hv3]; exact h25)]
  dsimp only
  rw [airborneAnimPhase_velocity, jumpPhase_velocity_y_keep, landingSafetyPhase_velocity,
    movementPhase_velocity_y, iceSlopePhase_velocity_y]

/-- Shared: airborne against a wall with vertical velocity at or above
the jump impulse — the whole tick leaves the vertical velocity
unchanged. -/
theorem setInput_wall_keeps_big_vy (m : MathOps) (env : Env) (s : PlayerState)
    (input : InputState) (cam δ : ℚ)
    (hd : s.isDead = false) (hw : s.hasWon = false)
    (hg : (getGroundInfo m env s).grounded = false)
    (hwall : (computeWallContactFromContacts env).isSome = true)
    (hvy : s.velocity.y ≥ 4) :
    ((setInput m env s input cam δ).1).velocity.y = s.velocity.y := by
  have hbig : ¬ |(wallFlagsPhase env s).velocity.y| < 1/2 := by
    rw [wallFlagsPhase_velocity]
    intro habs
    have := abs_lt.mp habs
    linarith
  have hstuck := stuckPhase_velocity_of_big_vy m δ (wallFlagsPhase env s) hbig
  have hv3 : (coyotePhase (getGroundInfo m env s) δ
      (updateLastPosition (stuckPhase m false δ (wallFlagsPhase env s)).1)).velocity
      = s.velocity := by
    rw [coyotePhase_velocity]
    simp only [updateLastPosition]
    rw [hstuck.1, wallFlagsPhase_velocity]
  have hw3 : (coyotePhase (getGroundInfo m env s) δ
      (updateLastPosition (stuckPhase m false δ (wallFlagsPhase env s)).1)).isAgainstWall
      = true := by
    rw [coyotePhase_isAgainstWall]
    simp only [updateLastPosition]
    rw [stuckPhase_isAgainstWall, wallFlagsPhase_isAgainstWall, hwall]
  have hc : ¬ ((coyotePhase (getGroundInfo m env s) δ
      (updateLastPosition (stuckPhase m false δ (wallFlagsPhase env s)).1)).isJumping = false ∧
      (coyotePhase (getGroundInfo m env s) δ
      (updateLastPosition (stuckPhase m false δ (wallFlagsPhase env s)).1)).velocity.y > 0 ∧
      (coyotePhase (getGroundInfo m env s) δ
      (updateLastPosition (stuckPhase m false δ (wallFlagsPhase env s)).1)).velocity.y < 5/2) := by
    rw [hv3]
    rintro ⟨-, -, h⟩
    linarith
  unfold setInput
  dsimp only
  rw [if_neg (by simp [hd, hw])]
  rw [hg]
  rw [wallGuardPhase_wall_keep _ _ hw3 hg hc]
  dsimp only
  rw [airborneAnimPhase_velocity, jumpPhase_velocity_y_keep, landingSafetyPhase_velocity,
    movementPhase_velocity_y, iceSlopePhase_velocity_y]
  dsimp only
  rw [hv3]

/-- C3 counterexample: airborne against a wall while still flagged as
jumping (jump held, velocity decayed to 1, inside (0, 2.5)) — the wall
guard's `!this.isJumping` condition keeps the tick from zeroing the
vertical velocity, so it stays 1. -/
theorem wall_guard_jumping_cex :
    (getGroundInfo mZero wallEnv
        { basePlayer with isJumping := true, velocity := ⟨0, 1, 0⟩ }).grounded = false ∧
    (computeWallContactFromContacts wallEnv).isSome = true ∧
    ((setInput mZero wallEnv { basePlayer with isJumping := true, velocity := ⟨0, 1, 0⟩ }
        ⟨0, 0, false, false⟩ 0 (1/60)).1).velocity.y = 1 ∧ (1 : ℚ) ≠ 0 := by
  refine ⟨?_,
    by norm_num [computeWallContactFromContacts, checkWallNormal, wallEnv,
      wallContactEntry, Vec3.neg, List.findSome?],
    ?_, by norm_num⟩
  · norm_num [getGroundInfo, wallEnv, wallContactEntry, basePlayer, acceptContact,
      footWorldY, Vec3.zero, Vec3.neg, notGroundedInfo, List.findSome?, mZero]
  · norm_num [setInput, stuckPhase, isStuckCond, updateLastPosition, coyotePhase,
      wallGuardPhase, iceSlopePhase, movementPhase, landingSafetyPhase, jumpPhase,
      airborneAnimPhase, getGroundInfo, computeWallContactFromContacts, checkWallNormal,
      wallFlagsPhase, acceptContact, footWorldY, Vec3.zero, Vec3.neg, Vec3.sub,
      notGroundedInfo, groundedResult, List.findSome?, mZero, wallEnv, wallContactEntry,
      basePlayer, clamp01, tagIsIce, tagIsIceSlope, MAX_JUMPABLE_SLOPE_ANGLE,
      COYOTE_TIME, MIN_JUMP_FORCE, MAX_JUMP_TIME, JUMP_HOLD_FORCE, MOVE_SPEED,
      SPRINT_MULTIPLIER]

/-- C3 (amended).  Airborne with a wall-like contact present: when the
character is not already in a jump and the stuck-recovery nudge does not
fire this tick, a vertical velocity strictly between 0 and 2.5 is set to
0 by the tick; a vertical velocity at or above the jump impulse
magnitude (4) is always left unchanged. -/
theorem wall_guard_amended (m : MathOps) (env : Env) (s : PlayerState)
    (input : InputState) (cam δ : ℚ)
    (hd : s.isDead = false) (hw : s.hasWon = false)
    (hg : (getGroundInfo m env s).grounded = false)
    (hwall : (computeWallContactFromContacts env).isSome = true) :
    (s.isJumping = false → ((setInput m env s input cam δ).2).nudged = false →
        s.velocity.y > 0 → s.velocity.y < 5/2 →
        ((setInput m env s input cam δ).1).velocity.y = 0) ∧
    (s.velocity.y ≥ 4 →
        ((setInput m env s input cam δ).1).velocity.y = s.velocity.y) :=
  ⟨fun hj hn h0 h25 =>
      setInput_wall_zeroes_small_vy m env s input cam δ hd hw hg hwall hj hn h0 h25,
    fun hvy => setInput_wall_keeps_big_vy m env s input cam δ hd hw hg hwall hvy⟩

/-- Witness for C3's amended statement: a concrete airborne wall tick
with vertical velocity 1 ends with vertical velocity 0. -/
theorem wall_guard_amended_witness :
    ((setInput mZero wallEnv { basePlayer with velocity := ⟨0, 1, 0⟩ }
        ⟨0, 0, false, false⟩ 0 (1/60)).1).velocity.y = 0 := by
  have h := wall_guard_amended mZero wallEnv { basePlayer with velocity := ⟨0, 1, 0⟩ }
    ⟨0, 0, false, false⟩ 0 (1/60) rfl rfl
    (by
      norm_num [getGroundInfo, wallEnv, wallContactEntry, basePlayer, acceptContact,
        footWorldY, Vec3.zero, Vec3.neg, notGroundedInfo, List.findSome?, mZero])
    (by
      norm_num [computeWallContactFromContacts, checkWallNormal, wallEnv,
        wallContactEntry, Vec3.neg, List.findSome?])
  exact h.1 rfl
    (by
      norm_num [setInput, stuckPhase, isStuckCond, updateLastPosition, coyotePhase,
        wallGuardPhase, iceSlopePhase, movementPhase, landingSafetyPhase, jumpPhase,
        airborneAnimPhase, getGroundInfo, computeWallContactFromContacts, checkWallNormal,
        wallFlagsPhase, acceptContact, footWorldY, Vec3.zero, Vec3.neg, Vec3.sub,
        notGroundedInfo, groundedResult, List.findSome?, mZero, wallEnv, wallContactEntry,
        basePlayer, clamp01, tagIsIce, tagIsIceSlope, MAX_JUMPABLE_SLOPE_ANGLE,
        COYOTE_TIME, MIN_JUMP_FORCE, MAX_JUMP_TIME, JUMP_HOLD_FORCE, MOVE_SPEED,
        SPRINT_MULTIPLIER])
    (by norm_num) (by norm_num)

/-- C7.  Every grounded probe result has `canJump` true exactly when its
slope angle is below `MAX_JUMPABLE_SLOPE_ANGLE`, and `canJump` is true
only on grounded results whose slope angle is below the threshold. -/
theorem canJump_iff_slope (m : MathOps) (env : Env) (s : PlayerState) :
    ((getGroundInfo m env s).grounded = true →
        ((getGroundInfo m env s).canJump = true ↔
          (getGroundInfo m env s).slopeAngle < MAX_JUMPABLE_SLOPE_ANGLE)) ∧
    ((getGroundInfo m env s).canJump = true →
        (getGroundInfo m env s).slopeAngle < MAX_JUMPABLE_SLOPE_ANGLE ∧
          (getGroundInfo m env s).grounded = true) := by
  unfold getGroundInfo
  dsimp only
  repeat' split
  all_goals simp_all [groundedResult, notGroundedInfo]

/-- Witness for C7 on a concrete grounded probe result. -/
theorem canJump_iff_slope_witness :
    (getGroundInfo mZero groundedEnv basePlayer).canJump = true ↔
      (getGroundInfo mZero groundedEnv basePlayer).slopeAngle < MAX_JUMPABLE_SLOPE_ANGLE := by
  exact (canJump_iff_slope mZero groundedEnv basePlayer).1
    (by
      norm_num [getGroundInfo, groundedEnv, basePlayer, floorContact, acceptContact,
        footWorldY, Vec3.zero, notGroundedInfo, groundedResult, List.findSome?, mZero,
        plainUD, clamp01, tagIsIce, tagIsIceSlope, MAX_JUMPABLE_SLOPE_ANGLE])

/-- The contact loop of `getGroundInfo` returns the first qualifying
contact in iteration order. -/
theorem findSome?_of_prefix_none {α β : Type} (f : α → Option β) (l1 : List α) (c : α)
    (l2 : List α) (b : β) (hskip : ∀ x ∈ l1, f x = none) (hacc : f c = some b) :
    (l1 ++ c :: l2).findSome? f = some b := by
  induction l1 with
  | nil => simp [List.findSome?, hacc]
  | cons a t ih =>
    have ha : f a = none := hskip a (by simp)
    simp only [List.cons_append, List.findSome?, ha]
    exact ih fun x hx => hskip x (by simp [hx])

/-- C2 (amended).  The contact scan takes the **first** qualifying
contact in iteration order and builds the whole result from it — the
reported surface is that contact's tag, with no preference for
ice-tagged contacts found later. -/
theorem groundScan_first_qualifying (m : MathOps) (env : Env) (s : PlayerState)
    (l1 : List Contact) (c : Contact) (l2 : List Contact) (hit : ℚ × Option UserData)
    (hworld : env.worldExists = true)
    (hvy : ¬ s.velocity.y > 2)
    (hsplit : env.contacts = l1 ++ c :: l2)
    (hskip : ∀ c' ∈ l1, acceptContact s.position (footWorldY s) c' = none)
    (hacc : acceptContact s.position (footWorldY s) c = some hit) :
    getGroundInfo m env s = groundedResult m hit.1 hit.2 := by
  unfold getGroundInfo
  rw [hsplit]
  rw [if_neg (by simp [hworld]), if_neg hvy]
  dsimp only
  rw [findSome?_of_prefix_none _ l1 c l2 hit hskip hacc]

/-- Witness for C2's amended statement: with a non-qualifying wall
contact first and a qualifying ice contact second, the result is built
from the ice contact. -/
theorem groundScan_first_qualifying_witness :
    getGroundInfo mZero iceAfterWallEnv basePlayer =
      groundedResult mZero 1 (some iceUD) := by
  exact groundScan_first_qualifying mZero iceAfterWallEnv basePlayer
    [wallContactEntry] (floorContact (some iceUD)) [] (1, some iceUD)
    rfl (by norm_num [basePlayer, Vec3.zero])
    rfl
    (by
      intro c' hc'
      simp only [List.mem_singleton] at hc'
      subst hc'
      norm_num [acceptContact, wallContactEntry, basePlayer, footWorldY, Vec3.zero])
    (by
      norm_num [acceptContact, floorContact, basePlayer, footWorldY, Vec3.zero])

/-- C2 counterexample: the contact set holds a qualifying non-ice
contact first and a qualifying ice contact second; the scan reports a
grounded, **non-ice** surface, so the ice contact is not preferred. -/
theorem groundScan_no_ice_preference_cex :
    (acceptContact basePlayer.position (footWorldY basePlayer)
        (floorContact (some plainUD))).isSome = true ∧
    (acceptContact basePlayer.position (footWorldY basePlayer)
        (floorContact (some iceUD))).isSome = true ∧
    tagIsIce (some "ice") = true ∧
    (getGroundInfo mZero mixedEnv basePlayer).grounded = true ∧
    (getGroundInfo mZero mixedEnv basePlayer).isIce = false := by
  refine ⟨?_, ?_, rfl, ?_, ?_⟩
  · norm_num [acceptContact, floorContact, basePlayer, footWorldY, Vec3.zero]
  · norm_num [acceptContact, floorContact, basePlayer, footWorldY, Vec3.zero]
  · norm_num [getGroundInfo, mixedEnv, basePlayer, floorContact, acceptContact,
      footWorldY, Vec3.zero, notGroundedInfo, groundedResult, List.findSome?, mZero,
      plainUD, clamp01, tagIsIce, tagIsIceSlope]
  · norm_num [getGroundInfo, mixedEnv, basePlayer, floorContact, acceptContact,
      footWorldY, Vec3.zero, notGroundedInfo, groundedResult, List.findSome?, mZero,
      plainUD, clamp01, tagIsIce, tagIsIceSlope]

theorem jumpPhase_isJumping_of_started (input : InputState) (δ : ℚ) (cj : Bool)
    (s : PlayerState) (h : (jumpPhase input δ cj s).2 = true) :
    ((jumpPhase input δ cj s).1).isJumping = true := by
  unfold jumpPhase at *
  repeat' split at h
  all_goals simp_all

/-- C9.  The four callbacks fire at most once per transition: `onDeath`
only on a false-to-true transition of `isDead`, `onGoal` only on a
false-to-true transition of `hasWon`, `onCoinCollect` only for a coin
whose `collected` flag was unset and which comes back set, and
`onJumpStart` only on a tick that begins a new jump (the jumping flag
was clear — directly or through the landing reset — and is set by the
tick), never on a held-jump tick. -/
theorem events_once_per_transition (m : MathOps) (env : Env) (s : PlayerState)
    (e : CollideEventIn) (input : InputState) (cam δ : ℚ) :
    (((handleCollide m env s e).2.2).deathFired = true →
        s.isDead = false ∧ ((handleCollide m env s e).1).isDead = true) ∧
    (((handleCollide m env s e).2.2).goalFired = true →
        s.hasWon = false ∧ ((handleCollide m env s e).1).hasWon = true) ∧
    (((handleCollide m env s e).2.2).coinFired = true →
        (∃ ud, e.userData = some ud ∧ ud.collected = false) ∧
        (∀ ud, (handleCollide m env s e).2.1 = some ud → ud.collected = true)) ∧
    (((setInput m env s input cam δ).2).jumpStarted = true →
        ((setInput m env s input cam δ).1).isJumping = true ∧
        (s.isJumping = false ∨
          ((getGroundInfo m env s).grounded = true ∧ s.velocity.y ≤ 1/2))) := by
  have hwc : ∀ e1 : CollideEventIn,
      (collideWallCancel m env s e1).isDead = s.isDead ∧
      (collideWallCancel m env s e1).hasWon = s.hasWon := by
    intro e1
    unfold collideWallCancel
    dsimp only
    repeat' split
    all_goals exact ⟨rfl, rfl⟩
  have hdeath : ∀ s1 ud?,
      ((collideTagDispatch s1 ud?).2.2).deathFired = true →
        s1.isDead = false ∧ ((collideTagDispatch s1 ud?).1).isDead = true := by
    intro s1 ud?
    unfold collideTagDispatch
    repeat' split
    all_goals simp_all [noCollideEvents]
  have hgoal : ∀ s1 ud?,
      ((collideTagDispatch s1 ud?).2.2).goalFired = true →
        s1.hasWon = false ∧ ((collideTagDispatch s1 ud?).1).hasWon = true := by
    intro s1 ud?
    unfold collideTagDispatch
    repeat' split
    all_goals simp_all [noCollideEvents]
  have hcoin : ∀ s1 ud?,
      ((collideTagDispatch s1 ud?).2.2).coinFired = true →
        (∃ ud, ud? = some ud ∧ ud.collected = false) ∧
        (∀ ud, (collideTagDispatch s1 ud?).2.1 = some ud → ud.collected = true) := by
    intro s1 ud?
    unfold collideTagDispatch
    repeat' split
    all_goals simp_all [noCollideEvents]
  refine ⟨?_, ?_, ?_, ?_⟩
  · intro h
    unfold handleCollide at h ⊢
    have := hdeath (collideWallCancel m env s e) e.userData h
    exact ⟨(hwc e).1 ▸ this.1, this.2⟩
  · intro h
    unfold handleCollide at h ⊢
    have := hgoal (collideWallCancel m env s e) e.userData h
    exact ⟨(hwc e).2 ▸ this.1, this.2⟩
  · intro h
    unfold handleCollide at h ⊢
    exact hcoin (collideWallCancel m env s e) e.userData h
  · unfold setInput
    dsimp only
    split
    · intro h
      simp at h
    · intro h
      constructor
      · rw [airborneAnimPhase_isJumping]
        exact jumpPhase_isJumping_of_started _ _ _ _ h
      · rw [jumpPhase_started_iff] at h
        simp only [Bool.and_eq_true, Bool.not_eq_true'] at h
        have hnj7 := h.2
        rw [landingSafetyPhase_isJumping_eq] at hnj7
        by_cases hgr : (getGroundInfo m env s).grounded = true
        · by_cases hvy : s.velocity.y ≤ 1/2
          · exact Or.inr ⟨hgr, hvy⟩
          · rw [wallGuardPhase_of_grounded _ _ hgr] at hnj7
            dsimp only at hnj7
            rw [movementPhase_velocity_y, iceSlopePhase_velocity_y,
              coyotePhase_velocity] at hnj7
            simp only [updateLastPosition] at hnj7
            rw [hgr, stuckPhase_grounded_eq] at hnj7
            dsimp only at hnj7
            rw [wallFlagsPhase_velocity] at hnj7
            rw [if_neg (fun hagg => hvy hagg.2)] at hnj7
            rw [movementPhase_isJumping, iceSlopePhase_isJumping] at hnj7
            rw [coyotePhase_isJumping] at hnj7
            simp only [updateLastPosition, wallFlagsPhase] at hnj7
            exact Or.inl hnj7
        · rw [if_neg (fun hagg => hgr hagg.1)] at hnj7
          rw [movementPhase_isJumping, iceSlopePhase_isJumping,
            wallGuardPhase_isJumping, coyotePhase_isJumping] at hnj7
          simp only [updateLastPosition] at hnj7
          rw [stuckPhase_isJumping, wallFlagsPhase_isJumping] at hnj7
          exact Or.inl hnj7

/-- Witness for C9: a lethal collide on a live player fires `onDeath`
and flips `isDead` from false to true. -/
theorem events_once_per_transition_witness :
    basePlayer.isDead = false ∧
    ((handleCollide mZero emptyEnv basePlayer
        ⟨true, ⟨0, 1, 0⟩, some { plainUD with tag := some "trap" }⟩).1).isDead = true := by
  exact (events_once_per_transition mZero emptyEnv basePlayer
      ⟨true, ⟨0, 1, 0⟩, some { plainUD with tag := some "trap" }⟩
      ⟨0, 0, false, false⟩ 0 (1/60)).1
    (by
      norm_num [handleCollide, collideTagDispatch, collideWallCancel, plainUD,
        basePlayer, Vec3.neg, Vec3.zero, getGroundInfo, emptyEnv, notGroundedInfo,
        List.findSome?, mZero, noCollideEvents])

theorem wallFlagsPhase_wasGrounded (env : Env) (s : PlayerState) :
    (wallFlagsPhase env s).wasGrounded = s.wasGrounded := rfl

theorem wallFlagsPhase_coyoteTimer (env : Env) (s : PlayerState) :
    (wallFlagsPhase env s).coyoteTimer = s.coyoteTimer := rfl

theorem coyotePhase_wasGrounded_airborne (gi : GroundInfo) (δ : ℚ) (s : PlayerState)
    (hg : gi.grounded = false) :
    (coyotePhase gi δ s).wasGrounded = s.wasGrounded := by
  rw [coyotePhase_airborne _ _ _ hg]
  split
  all_goals rfl

theorem coyotePhase_coyoteTimer_airborne (gi : GroundInfo) (δ : ℚ) (s : PlayerState)
    (hg : gi.grounded = false) :
    (coyotePhase gi δ s).coyoteTimer =
      (if s.wasGrounded = true ∧ s.coyoteTimer > 0 then s.coyoteTimer - δ
       else s.coyoteTimer) := by
  rw [coyotePhase_airborne _ _ _ hg]
  by_cases hc : s.wasGrounded = true ∧ s.coyoteTimer > 0
  · rw [if_pos, if_pos hc]
    exact ⟨hc.1, hc.2⟩
  · rw [if_neg, if_neg hc]
    exact fun hk => hc ⟨hk.1, hk.2⟩

/-- On a tick standing on jumpable ground with the jump button up, the
coyote timer refills, `wasGrounded` is set, and the jumping flag is
clear afterwards. -/
theorem setInput_grounded_jumpable_step (m : MathOps) (env : Env) (s : PlayerState)
    (input : InputState) (cam δ : ℚ)
    (hd : s.isDead = false) (hw : s.hasWon = false)
    (hg : (getGroundInfo m env s).grounded = true)
    (hc : (getGroundInfo m env s).canJump = true)
    (hj : input.jump = false) :
    ((setInput m env s input cam δ).1).coyoteTimer = COYOTE_TIME ∧
    ((setInput m env s input cam δ).1).wasGrounded = true ∧
    ((setInput m env s input cam δ).1).isJumping = false ∧
    ((setInput m env s input cam δ).1).isDead = false ∧
    ((setInput m env s input cam δ).1).hasWon = false := by
  refine ⟨?_, ?_, ?_, ?_, ?_⟩
  · unfold setInput
    dsimp only
    rw [if_neg (by simp [hd, hw])]
    rw [airborneAnimPhase_coyoteTimer, jumpPhase_no_jump _ _ _ _ hj]
    dsimp only
    rw [landingSafetyPhase_coyoteTimer, movementPhase_coyoteTimer,
      iceSlopePhase_coyoteTimer, wallGuardPhase_of_grounded _ _ hg]
    dsimp only
    rw [coyotePhase_grounded_canJump _ _ _ hg hc]
  · unfold setInput
    dsimp only
    rw [if_neg (by simp [hd, hw])]
    rw [airborneAnimPhase_wasGrounded, jumpPhase_no_jump _ _ _ _ hj]
    dsimp only
    rw [landingSafetyPhase_wasGrounded, movementPhase_wasGrounded,
      iceSlopePhase_wasGrounded, wallGuardPhase_of_grounded _ _ hg]
    dsimp only
    rw [coyotePhase_grounded_canJump _ _ _ hg hc]
  · unfold setInput
    dsimp only
    rw [if_neg (by simp [hd, hw])]
    rw [airborneAnimPhase_isJumping, jumpPhase_no_jump _ _ _ _ hj]
  · rw [setInput_isDead]
    exact hd
  · rw [setInput_hasWon]
    exact hw

/-- On an airborne tick with no wall-like contact and the jump button
up: the jumping flag is cleared, `wasGrounded` survives, the coyote
timer counts down exactly when it was positive with `wasGrounded` set,
and the death/win flags survive. -/
theorem setInput_airborne_nojump_step (m : MathOps) (env : Env) (s : PlayerState)
    (input : InputState) (cam δ : ℚ)
    (hd : s.isDead = false) (hw : s.hasWon = false)
    (hg : (getGroundInfo m env s).grounded = false)
    (hwall : computeWallContactFromContacts env = none)
    (hj : input.jump = false) :
    ((setInput m env s input cam δ).1).isJumping = false ∧
    ((setInput m env s input cam δ).1).wasGrounded = s.wasGrounded ∧
    ((setInput m env s input cam δ).1).coyoteTimer =
      (if s.wasGrounded = true ∧ s.coyoteTimer > 0 then s.coyoteTimer - δ
       else s.coyoteTimer) ∧
    ((setInput m env s input cam δ).1).isDead = false ∧
    ((setInput m env s input cam δ).1).hasWon = false := by
  have hw3 : (coyotePhase (getGroundInfo m env s) δ
      (updateLastPosition
        (stuckPhase m (getGroundInfo m env s).grounded δ (wallFlagsPhase env s)).1)).isAgainstWall
      = false := by
    rw [coyotePhase_isAgainstWall]
    simp only [updateLastPosition]
    rw [stuckPhase_isAgainstWall, wallFlagsPhase_isAgainstWall, hwall]
    rfl
  refine ⟨?_, ?_, ?_, ?_, ?_⟩
  · unfold setInput
    dsimp only
    rw [if_neg (by simp [hd, hw])]
    rw [airborneAnimPhase_isJumping, jumpPhase_no_jump _ _ _ _ hj]
  · unfold setInput
    dsimp only
    rw [if_neg (by simp [hd, hw])]
    rw [airborneAnimPhase_wasGrounded, jumpPhase_no_jump _ _ _ _ hj]
    dsimp only
    rw [landingSafetyPhase_airborne _ _ hg, movementPhase_wasGrounded,
      iceSlopePhase_of_not_grounded _ _ hg, wallGuardPhase_wasGrounded,
      coyotePhase_wasGrounded_airborne _ _ _ hg]
    simp only [updateLastPosition]
    rw [stuckPhase_wasGrounded, wallFlagsPhase_wasGrounded]
  · unfold setInput
    dsimp only
    rw [if_neg (by simp [hd, hw])]
    rw [airborneAnimPhase_coyoteTimer, jumpPhase_no_jump _ _ _ _ hj]
    dsimp only
    rw [landingSafetyPhase_coyoteTimer, movementPhase_coyoteTimer,
      iceSlopePhase_of_not_grounded _ _ hg, wallGuardPhase_of_no_wall _ _ hw3]
    dsimp only
    rw [coyotePhase_coyoteTimer_airborne _ _ _ hg]
    simp only [updateLastPosition]
    rw [stuckPhase_wasGrounded, stuckPhase_coyoteTimer,
      wallFlagsPhase_wasGrounded, wallFlagsPhase_coyoteTimer]
  · rw [setInput_isDead]
    exact hd
  · rw [setInput_hasWon]
    exact hw

/-- On an airborne tick with no wall-like contact, jump pressed and no
jump in progress, the jump starts exactly when the decremented coyote
timer is still positive. -/
theorem setInput_airborne_jump_tick (m : MathOps) (env : Env) (s : PlayerState)
    (input : InputState) (cam δ : ℚ)
    (hd : s.isDead = false) (hw : s.hasWon = false)
    (hg : (getGroundInfo m env s).grounded = false)
    (hwall : computeWallContactFromContacts env = none)
    (hjump : input.jump = true) (hnj : s.isJumping = false) :
    ((setInput m env s input cam δ).2).jumpStarted =
      decide ((if s.wasGrounded = true ∧ s.coyoteTimer > 0 then s.coyoteTimer - δ
        else s.coyoteTimer) > 0) := by
  have hw3 : (coyotePhase (getGroundInfo m env s) δ
      (updateLastPosition
        (stuckPhase m (getGroundInfo m env s).grounded δ (wallFlagsPhase env s)).1)).isAgainstWall
      = false := by
    rw [coyotePhase_isAgainstWall]
    simp only [updateLastPosition]
    rw [stuckPhase_isAgainstWall, wallFlagsPhase_isAgainstWall, hwall]
    rfl
  have hsj3 : (coyotePhase (getGroundInfo m env s) δ
      (updateLastPosition
        (stuckPhase m (getGroundInfo m env s).grounded δ (wallFlagsPhase env s)).1)).isJumping
      = false := by
    rw [coyotePhase_isJumping]
    simp only [updateLastPosition]
    rw [stuckPhase_isJumping, wallFlagsPhase_isJumping, hnj]
  unfold setInput
  dsimp only
  rw [if_neg (by simp [hd, hw])]
  rw [jumpPhase_started_iff, hjump]
  rw [landingSafetyPhase_airborne _ _ hg, movementPhase_isJumping,
    iceSlopePhase_of_not_grounded _ _ hg]
  rw [wallGuardPhase_of_no_wall _ _ hw3]
  dsimp only
  rw [hsj3]
  rw [coyotePhase_coyoteTimer_airborne _ _ _ hg]
  simp only [updateLastPosition]
  rw [stuckPhase_wasGrounded, stuckPhase_coyoteTimer,
    wallFlagsPhase_wasGrounded, wallFlagsPhase_coyoteTimer]
  rw [hg]
  simp

theorem sumDeltas_cons (st : Step) (l : List Step) :
    sumDeltas (st :: l) = st.delta + sumDeltas l := by
  simp [sumDeltas]

/-- Along an airborne, jump-free, wall-free run the controller keeps the
death/win/jump flags clear, keeps `wasGrounded`, and the coyote timer
tracks `COYOTE_TIME` minus the elapsed time until it runs out. -/
theorem runSteps_coyote_inv (m : MathOps) (mids : List Step) :
    ∀ (s : PlayerState) (acc : ℚ),
      s.isDead = false → s.hasWon = false → s.isJumping = false →
      s.wasGrounded = true →
      (s.coyoteTimer = COYOTE_TIME - acc ∨ (s.coyoteTimer ≤ 0 ∧ acc ≥ COYOTE_TIME)) →
      airborneNoJumpRunB m s mids = true →
      ((runSteps m s mids).isDead = false ∧ (runSteps m s mids).hasWon = false ∧
        (runSteps m s mids).isJumping = false ∧ (runSteps m s mids).wasGrounded = true ∧
        ((runSteps m s mids).coyoteTimer = COYOTE_TIME - (acc + sumDeltas mids) ∨
          ((runSteps m s mids).coyoteTimer ≤ 0 ∧ acc + sumDeltas mids ≥ COYOTE_TIME))) := by
  induction mids with
  | nil =>
    intro s acc hd hw hj hwg hcoy _
    simp only [runSteps, List.foldl_nil, sumDeltas, List.map_nil, List.sum_nil, add_zero]
    exact ⟨hd, hw, hj, hwg, hcoy⟩
  | cons st rest ih =>
    intro s acc hd hw hj hwg hcoy hrun
    simp only [airborneNoJumpRunB, Bool.and_eq_true, Bool.not_eq_true',
      Option.isNone_iff_eq_none, decide_eq_true_eq] at hrun
    obtain ⟨⟨⟨⟨hg, hwall⟩, hjin⟩, hδ⟩, hrest⟩ := hrun
    have hstep := setInput_airborne_nojump_step m st.env s st.input st.cam st.delta
      hd hw hg hwall hjin
    have hrs : runSteps m s (st :: rest) = runSteps m (applyStep m s st) rest := by
      simp [runSteps, applyStep]
    rw [hrs, sumDeltas_cons]
    have hnext : (applyStep m s st).coyoteTimer = COYOTE_TIME - (acc + st.delta) ∨
        ((applyStep m s st).coyoteTimer ≤ 0 ∧ acc + st.delta ≥ COYOTE_TIME) := by
      have hcoyeq := hstep.2.2.1
      rcases hcoy with heq | ⟨hle, hge⟩
      · by_cases hpos : s.coyoteTimer > 0
        · left
          rw [applyStep, hcoyeq, if_pos ⟨hwg, hpos⟩, heq]
          ring
        · right
          have hle0 : s.coyoteTimer ≤ 0 := le_of_not_lt hpos
          constructor
          · rw [applyStep, hcoyeq, if_neg (fun hk => hpos hk.2)]
            exact hle0
          · have : COYOTE_TIME - acc ≤ 0 := heq ▸ hle0
            have hac : COYOTE_TIME ≤ acc := by linarith
            linarith
      · right
        constructor
        · rw [applyStep, hcoyeq, if_neg (fun hk => absurd hk.2 (not_lt.mpr hle))]
          exact hle
        · linarith
    have := ih (applyStep m s st) (acc + st.delta) hstep.2.2.2.1 hstep.2.2.2.2
      hstep.1 (hstep.2.1.trans hwg) hnext hrest
    have harith : acc + st.delta + sumDeltas rest = acc + (st.delta + sumDeltas rest) := by
      ring
    rw [harith] at this
    exact this

/-- C4.  Coyote window: step off jumpable ground without jumping and
with no wall contact; a first jump input arriving while the elapsed
airborne time is under `COYOTE_TIME` starts a jump, and one arriving
strictly after `COYOTE_TIME` does not. -/
theorem coyote_window (m : MathOps) (s0 : PlayerState) (st0 : Step)
    (mids : List Step) (stf : Step)
    (hd0 : s0.isDead = false) (hw0 : s0.hasWon = false)
    (h0g : (getGroundInfo m st0.env s0).grounded = true)
    (h0c : (getGroundInfo m st0.env s0).canJump = true)
    (h0j : st0.input.jump = false)
    (hrun : airborneNoJumpRunB m (applyStep m s0 st0) mids = true)
    (hfg : (getGroundInfo m stf.env (runSteps m (applyStep m s0 st0) mids)).grounded = false)
    (hfw : computeWallContactFromContacts stf.env = none)
    (hfj : stf.input.jump = true)
    (hfd : 0 ≤ stf.delta) :
    (sumDeltas mids + stf.delta < COYOTE_TIME →
      ((setInput m stf.env (runSteps m (applyStep m s0 st0) mids)
          stf.input stf.cam stf.delta).2).jumpStarted = true) ∧
    (sumDeltas mids + stf.delta > COYOTE_TIME →
      ((setInput m stf.env (runSteps m (applyStep m s0 st0) mids)
          stf.input stf.cam stf.delta).2).jumpStarted = false) := by
  have hstart := setInput_grounded_jumpable_step m st0.env s0 st0.input st0.cam st0.delta
    hd0 hw0 h0g h0c h0j
  have hinv := runSteps_coyote_inv m mids (applyStep m s0 st0) 0
    hstart.2.2.2.1 hstart.2.2.2.2 hstart.2.2.1 hstart.2.1
    (Or.inl (by rw [applyStep, hstart.1]; ring))
    hrun
  obtain ⟨hkd, hkw, hkj, hkwg, hkcoy⟩ := hinv
  rw [zero_add] at hkcoy
  have htick := setInput_airborne_jump_tick m stf.env
    (runSteps m (applyStep m s0 st0) mids) stf.input stf.cam stf.delta
    hkd hkw hfg hfw hfj hkj
  rw [htick]
  constructor
  · intro hlt
    rcases hkcoy with heq | ⟨hle, hge⟩
    · have hpos : (runSteps m (applyStep m s0 st0) mids).coyoteTimer > 0 := by
        rw [heq]
        have : sumDeltas mids < COYOTE_TIME := by linarith
        linarith
      rw [if_pos ⟨hkwg, hpos⟩, heq]
      simp only [decide_eq_true_eq]
      linarith
    · exfalso
      have : sumDeltas mids < COYOTE_TIME := by linarith
      linarith
  · intro hgt
    rcases hkcoy with heq | ⟨hle, hge⟩
    · by_cases hpos : (runSteps m (applyStep m s0 st0) mids).coyoteTimer > 0
      · rw [if_pos ⟨hkwg, hpos⟩, heq]
        simp only [decide_eq_false_iff_not, not_lt]
        linarith
      · rw [if_neg (fun hk => hpos hk.2)]
        simp only [decide_eq_false_iff_not, not_lt]
        exact le_of_not_lt hpos
    · rw [if_neg (fun hk => absurd hk.2 (not_lt.mpr hle))]
      simp only [decide_eq_false_iff_not, not_lt]
      exact hle

/-- Witness for C4: leave jumpable ground, stay airborne zero extra
ticks, press jump one tick (1/60 s < COYOTE_TIME) later — the jump
starts. -/
theorem coyote_window_witness :
    ((setInput mZero emptyEnv
        (runSteps mZero (applyStep mZero basePlayer ⟨groundedEnv, ⟨0, 0, false, false⟩, 0, 1/60⟩) [])
        ⟨0, 0, true, false⟩ 0 (1/60)).2).jumpStarted = true := by
  have h := coyote_window mZero basePlayer ⟨groundedEnv, ⟨0, 0, false, false⟩, 0, 1/60⟩
    [] ⟨emptyEnv, ⟨0, 0, true, false⟩, 0, 1/60⟩
    rfl rfl
    (by
      norm_num [getGroundInfo, groundedEnv, basePlayer, floorContact, acceptContact,
        footWorldY, Vec3.zero, notGroundedInfo, groundedResult, List.findSome?, mZero,
        plainUD, clamp01, tagIsIce, tagIsIceSlope, MAX_JUMPABLE_SLOPE_ANGLE])
    (by
      norm_num [getGroundInfo, groundedEnv, basePlayer, floorContact, acceptContact,
        footWorldY, Vec3.zero, notGroundedInfo, groundedResult, List.findSome?, mZero,
        plainUD, clamp01, tagIsIce, tagIsIceSlope, MAX_JUMPABLE_SLOPE_ANGLE])
    rfl rfl
    (by
      simp only [runSteps, List.foldl_nil]
      simp [getGroundInfo, emptyEnv, notGroundedInfo, List.findSome?])
    rfl rfl (by norm_num)
  exact h.1 (by norm_num [sumDeltas, COYOTE_TIME])

end UCH
